import Mathlib

/-! BasisImporter: format negotiation, container lifecycle and per-level transcode.

A shallow embedding of `src/MagnumPlugins/BasisImporter/BasisImporter.cpp`.

* `UnsignedInt` values are natural numbers below `2 ^ 32`, `Int` values are
  integers in the two's-complement range; conversions and unsigned products
  are reduced modulo `2 ^ 32`, a signed product that leaves the range is
  undefined.
* A null `const char*` is `none`; an operation that the C++ leaves undefined or
  that ends in `CORRADE_INTERNAL_ASSERT*` returns `none`.
* The Basis Universal transcoder is an external library: it enters as the
  parameter `Engine`.
-/

namespace Magnum.Trade

/-! ## Machine integers -/

/-- Conversion `UnsignedInt(i)` of an `Int`: the value modulo `2 ^ 32`. -/
def toUnsignedInt (i : Int) : Nat := (i % 4294967296).toNat

/-- Conversion `Int(u)` of an `UnsignedInt`: two's-complement reinterpretation. -/
def toInt (u : Nat) : Int :=
  if u % 4294967296 < 2147483648 then ((u % 4294967296 : Nat) : Int)
  else ((u % 4294967296 : Nat) : Int) - 4294967296

/-! ## Pixel formats (the enumerators of `Magnum/PixelFormat.h` that the importer produces) -/

/-- Uncompressed pixel formats returned by `pixelFormat`. -/
inductive PixelFormat where
  | RGBA8Unorm
  | RGBA8Srgb
  deriving DecidableEq, Repr

/-- Block-compressed pixel formats returned by `compressedPixelFormat`. -/
inductive CompressedPixelFormat where
  | Etc2RGB8Unorm
  | Etc2RGB8Srgb
  | Etc2RGBA8Unorm
  | Etc2RGBA8Srgb
  | Bc1RGBUnorm
  | Bc1RGBSrgb
  | Bc3RGBAUnorm
  | Bc3RGBASrgb
  | Bc4RUnorm
  | Bc5RGUnorm
  | Bc7RGBAUnorm
  | Bc7RGBASrgb
  | PvrtcRGB4bppUnorm
  | PvrtcRGB4bppSrgb
  | PvrtcRGBA4bppUnorm
  | PvrtcRGBA4bppSrgb
  | Astc4x4RGBAUnorm
  | Astc4x4RGBASrgb
  | EacR11Unorm
  | EacRG11Unorm
  deriving DecidableEq, Repr

/-! ## `BasisImporter::TargetFormat` -/

/-- A `BasisImporter::TargetFormat` is held by its underlying `UnsignedInt`
value: `fromString` casts arbitrary integers, the sentinel `~0u` included, to
the enumeration. -/
abbrev TargetFormat := Nat

namespace TargetFormat

/-!
Modelled from the spec: the enumerator values of `BasisImporter::TargetFormat`
are declared in `BasisImporter.h`, which is absent. Each enumerator is given
the index of its name in `FormatNames` (the table `toString` indexes with the
enumerator); the `static_assert` after the table fixes `EacRG` at the last
index, 21.
-/

/-- Modelled from the spec: enumerator `Etc1RGB` of the absent `BasisImporter.h`, the index of its name in `FormatNames`. -/
def Etc1RGB : TargetFormat := 0
/-- Modelled from the spec: enumerator `Etc2RGBA` of the absent `BasisImporter.h`, the index of its name in `FormatNames`. -/
def Etc2RGBA : TargetFormat := 1
/-- Modelled from the spec: enumerator `Bc1RGB` of the absent `BasisImporter.h`, the index of its name in `FormatNames`. -/
def Bc1RGB : TargetFormat := 2
/-- Modelled from the spec: enumerator `Bc3RGBA` of the absent `BasisImporter.h`, the index of its name in `FormatNames`. -/
def Bc3RGBA : TargetFormat := 3
/-- Modelled from the spec: enumerator `Bc4R` of the absent `BasisImporter.h`, the index of its name in `FormatNames`. -/
def Bc4R : TargetFormat := 4
/-- Modelled from the spec: enumerator `Bc5RG` of the absent `BasisImporter.h`, the index of its name in `FormatNames`. -/
def Bc5RG : TargetFormat := 5
/-- Modelled from the spec: enumerator `Bc7RGB` of the absent `BasisImporter.h`, the index of its name in `FormatNames`. -/
def Bc7RGB : TargetFormat := 6
/-- Modelled from the spec: enumerator `Bc7RGBA` of the absent `BasisImporter.h`, the index of its name in `FormatNames`. -/
def Bc7RGBA : TargetFormat := 7
/-- Modelled from the spec: enumerator `PvrtcRGB4bpp` of the absent `BasisImporter.h`, the index of its name in `FormatNames`. -/
def PvrtcRGB4bpp : TargetFormat := 8
/-- Modelled from the spec: enumerator `PvrtcRGBA4bpp` of the absent `BasisImporter.h`, the index of its name in `FormatNames`. -/
def PvrtcRGBA4bpp : TargetFormat := 9
/-- Modelled from the spec: enumerator `Astc4x4RGBA` of the absent `BasisImporter.h`, the index of its name in `FormatNames`. -/
def Astc4x4RGBA : TargetFormat := 10
/-- Modelled from the spec: enumerator `RGBA8` of the absent `BasisImporter.h`, the index of its name in `FormatNames`. -/
def RGBA8 : TargetFormat := 13
/-- Modelled from the spec: enumerator `EacR` of the absent `BasisImporter.h`, the index of its name in `FormatNames`. -/
def EacR : TargetFormat := 20
/-- Modelled from the spec: enumerator `EacRG` of the absent `BasisImporter.h`, the index of its name in `FormatNames`. -/
def EacRG : TargetFormat := 21

/-- The value `TargetFormat(~UnsignedInt{})`, all 32 bits set, that `fromString`
returns for an unknown name. -/
def invalid : TargetFormat := 4294967295

/-- The fourteen enumerators. -/
def enumerators : List TargetFormat :=
  [Etc1RGB, Etc2RGBA, Bc1RGB, Bc3RGBA, Bc4R, Bc5RG, Bc7RGB, Bc7RGBA,
   PvrtcRGB4bpp, PvrtcRGBA4bpp, Astc4x4RGBA, RGBA8, EacR, EacRG]

end TargetFormat

/-- `pixelFormat(type, isSrgb)`, lines 46-52. `none` is the
`CORRADE_INTERNAL_ASSERT_UNREACHABLE()` of the `default:` label. -/
def pixelFormat (type : TargetFormat) (isSrgb : Bool) : Option PixelFormat :=
  if type = TargetFormat.RGBA8 then
    some (if isSrgb then PixelFormat.RGBA8Srgb else PixelFormat.RGBA8Unorm)
  else none

/-- `compressedPixelFormat(type, isSrgb)`, lines 54-88. `none` is the
`CORRADE_INTERNAL_ASSERT_UNREACHABLE()` of the `default:` label. -/
def compressedPixelFormat (type : TargetFormat) (isSrgb : Bool) :
    Option CompressedPixelFormat :=
  if type = TargetFormat.Etc1RGB then
    some (if isSrgb then CompressedPixelFormat.Etc2RGB8Srgb else CompressedPixelFormat.Etc2RGB8Unorm)
  else if type = TargetFormat.Etc2RGBA then
    some (if isSrgb then CompressedPixelFormat.Etc2RGBA8Srgb else CompressedPixelFormat.Etc2RGBA8Unorm)
  else if type = TargetFormat.Bc1RGB then
    some (if isSrgb then CompressedPixelFormat.Bc1RGBSrgb else CompressedPixelFormat.Bc1RGBUnorm)
  else if type = TargetFormat.Bc3RGBA then
    some (if isSrgb then CompressedPixelFormat.Bc3RGBASrgb else CompressedPixelFormat.Bc3RGBAUnorm)
  else if type = TargetFormat.Bc4R then
    some CompressedPixelFormat.Bc4RUnorm
  else if type = TargetFormat.Bc5RG then
    some CompressedPixelFormat.Bc5RGUnorm
  else if type = TargetFormat.Bc7RGB then
    some (if isSrgb then CompressedPixelFormat.Bc7RGBASrgb else CompressedPixelFormat.Bc7RGBAUnorm)
  else if type = TargetFormat.Bc7RGBA then
    some (if isSrgb then CompressedPixelFormat.Bc7RGBASrgb else CompressedPixelFormat.Bc7RGBAUnorm)
  else if type = TargetFormat.PvrtcRGB4bpp then
    some (if isSrgb then CompressedPixelFormat.PvrtcRGB4bppSrgb else CompressedPixelFormat.PvrtcRGB4bppUnorm)
  else if type = TargetFormat.PvrtcRGBA4bpp then
    some (if isSrgb then CompressedPixelFormat.PvrtcRGBA4bppSrgb else CompressedPixelFormat.PvrtcRGBA4bppUnorm)
  else if type = TargetFormat.Astc4x4RGBA then
    some (if isSrgb then CompressedPixelFormat.Astc4x4RGBASrgb else CompressedPixelFormat.Astc4x4RGBAUnorm)
  else if type = TargetFormat.EacR then
    some CompressedPixelFormat.EacR11Unorm
  else if type = TargetFormat.EacRG then
    some CompressedPixelFormat.EacRG11Unorm
  else none

/-- The table `FormatNames`, lines 90-99; `none` is a `nullptr` entry. -/
def FormatNames : List (Option String) :=
  [some "Etc1RGB", some "Etc2RGBA",
   some "Bc1RGB", some "Bc3RGBA", some "Bc4R", some "Bc5RG", some "Bc7RGB", some "Bc7RGBA",
   some "PvrtcRGB4bpp", some "PvrtcRGBA4bpp",
   some "Astc4x4RGBA",
   none, none,
   some "RGBA8", none, none, none,
   none, none, none,
   some "EacR", some "EacRG"]

/-- Comparison `value == name` of a `std::string` with a `const char*`. It reads
the characters `name` points to, so it is undefined (`none`) for a null
pointer. -/
def stringEqCStr (value : String) (name : Option String) : Option Bool :=
  match name with
  | none => none
  | some n => some (decide (value = n))

/-- Conversion of a `const char*` to `std::string`; undefined (`none`) for a
null pointer. -/
def stringOfCStr (name : Option String) : Option String := name

/-- `ConfigurationValue<TargetFormat>::toString`, lines 110-115. -/
def toString (value : TargetFormat) : Option String :=
  if value % 4294967296 < FormatNames.length then
    stringOfCStr (FormatNames.getD (value % 4294967296) none)
  else some "<invalid>"

/-- The range-for of `fromString`, lines 119-122, over the remaining table
entries with the running counter `i`; `name && value == name` evaluates the
comparison only for a non-null `name`. After the last entry the function
returns `TargetFormat(~UnsignedInt{})`, line 124. -/
def fromStringLoop (value : String) : List (Option String) → Int → Option TargetFormat
  | [], _ => some TargetFormat.invalid
  | name :: rest, i =>
    if name.isSome then
      match stringEqCStr value name with
      | none => none
      | some true => some (toUnsignedInt i)
      | some false => fromStringLoop value rest (i + 1)
    else fromStringLoop value rest (i + 1)

/-- `ConfigurationValue<TargetFormat>::fromString`, lines 117-125. `none` would
be a read through a null table entry. -/
def fromString (value : String) : Option TargetFormat :=
  fromStringLoop value FormatNames 0

/-- The supported names: the non-null entries of `FormatNames`. -/
def supportedNames : List String := FormatNames.filterMap id

/-! ## The external transcoder -/

/-- Contents of a `Containers::Array<char>`. The importer only ever stores
`nullptr` or a non-empty array, so a null array and an empty one coincide. -/
abbrev Bytes := List (Fin 256)

/-- The fields of `basist::basisu_file_info` that the importer reads. -/
structure FileInfo where
  m_total_images : Nat
  m_image_mipmap_levels : List Nat
  m_y_flipped : Bool
  deriving DecidableEq, Repr

/-- Outcome of `basisu_transcoder::get_file_info(data, size, file_info)`, which
writes through the reference `file_info`: on `true` every field has been
assigned (`filled`), on `false` the referenced object is left as `leftover`
makes it from its previous contents. -/
inductive FileInfoResult where
  | filled (info : FileInfo)
  | failed (leftover : FileInfo → FileInfo)

/-- The Basis Universal calls of the importer, over sessions
(`basist::basisu_transcoder` objects) of type `σ`. The `const` member functions
leave the session as it is; `start_transcoding` returns the session it leaves
behind. A query that returns `false` is `none` (or `false`). -/
structure Engine (σ : Type) where
  /-- Constructor `basisu_transcoder(&codebook)`. -/
  create : σ
  validate_header : σ → Bytes → Bool
  get_file_info : σ → Bytes → FileInfoResult
  start_transcoding : σ → Bytes → Bool × σ
  /-- The test `header.m_flags & cBASISHeaderFlagSRGB` on the raw header. -/
  headerFlagSRGB : Bytes → Bool
  /-- Arguments: session, data, image index. -/
  get_image_info : σ → Bytes → Nat → Bool
  /-- Arguments: session, data, image index, level; result `origWidth`,
  `origHeight`, `totalBlocks`. -/
  get_image_level_desc : σ → Bytes → Nat → Nat → Option (Nat × Nat × Nat)
  /-- Arguments: session, data, image index, level, output size in blocks or
  pixels, format, decode flags, row pitch, output rows; on success the bytes
  written to the output buffer. -/
  transcode_image_level :
    σ → Bytes → Nat → Nat → Nat → Int → Nat → Nat → Nat → Option Bytes
  basis_transcoder_format_is_uncompressed : Int → Bool
  basis_get_bytes_per_block_or_pixel : Int → Nat

/-! ## Importer state -/

/-- What `Error{}` and `Warning{}` print. -/
inductive Diagnostic where
  | error (message : String)
  | warning (message : String)
  deriving DecidableEq, Repr

/-- `BasisImporter::State`, lines 132-144. The codebook is a constant of the
process and is part of `Engine.create`. `in_` holds the contents of `in`; the
origin of its memory is the `storage` of `commitInput`. -/
structure State (σ : Type) where
  transcoder : Option σ
  in_ : Bytes
  fileInfo : FileInfo
  isSrgb : Bool
  noTranscodeFormatWarningPrinted : Bool
  deriving DecidableEq

/-- State after `State()`: no session, no data, a default-constructed
`basisu_file_info`, the warning flag `false`. `isSrgb` has no initializer; its
indeterminate value is the argument. -/
def State.fresh {σ : Type} (isSrgb : Bool) : State σ :=
  { transcoder := none,
    in_ := [],
    fileInfo := { m_total_images := 0, m_image_mipmap_levels := [], m_y_flipped := false },
    isSrgb := isSrgb,
    noTranscodeFormatWarningPrinted := false }

/-- `Trade::DataFlag`. -/
inductive DataFlag where
  | Owned
  | ExternallyOwned
  | Mutable
  deriving DecidableEq, Repr

/-- `Trade::DataFlags`, a set of `DataFlag`. -/
abbrev DataFlags := List DataFlag

/-- `BasisImporter::doIsOpened`, lines 172-177; `none` is the failed
`CORRADE_INTERNAL_ASSERT`. -/
def doIsOpened {σ : Type} (st : State σ) : Option Bool :=
  if st.transcoder.isNone = st.in_.isEmpty then some (!st.in_.isEmpty) else none

/-- `BasisImporter::doClose`, lines 179-182. -/
def doClose {σ : Type} (st : State σ) : State σ :=
  { st with transcoder := none, in_ := [] }

/-- `Containers::Array<char>{NoInit, size}`: `size` bytes of indeterminate
content (zeros here; `copyBytes` overwrites all of them). -/
def noInitArray (size : Nat) : Bytes := List.replicate size 0

/-- `Utility::copy(src, dst)`: every byte of `dst` is replaced by the byte of
`src` at the same position. -/
def copyBytes (src dst : Bytes) : Bytes := List.zipWith (fun s _ => s) src dst

/-- Whose memory a `Containers::Array<char>` holds: the array the caller passed
to `doOpenData`, or an array the importer allocated itself. -/
inductive Storage where
  | input
  | allocated
  deriving DecidableEq, Repr

/-- A `Containers::Array<char>` with the origin of its memory. -/
structure CharArray where
  storage : Storage
  bytes : Bytes
  deriving DecidableEq, Repr

/-- Lines 222-227 of `doOpenData`, the array assigned to `_state->in`: with
`Owned` or `ExternallyOwned` set it is `std::move(data)`, the caller's array
itself; otherwise a `NoInit` array of the same size is allocated and
`Utility::copy` fills it from `data`. -/
def commitInput (data : Bytes) (dataFlags : DataFlags) : CharArray :=
  if dataFlags.contains DataFlag.Owned || dataFlags.contains DataFlag.ExternallyOwned then
    { storage := Storage.input, bytes := data }
  else
    let fresh : CharArray := { storage := Storage.allocated, bytes := noInitArray data.length }
    { fresh with bytes := copyBytes data fresh.bytes }

/-- The action of `transcoderGuard` when it fires at scope exit, lines 198-200. -/
def transcoderGuard {σ : Type} (st : State σ) : State σ :=
  { st with transcoder := none }

/-- What `doOpenData` leaves: the state, what it printed, and the array it
assigned to `_state->in` at lines 222-227 (`none` when it returned before). -/
structure OpenDataResult (σ : Type) where
  state : State σ
  log : List Diagnostic
  committed : Option CharArray

/-- `BasisImporter::doOpenData`, lines 184-228, with the array assigned to
`_state->in`. -/
def doOpenDataCommitted {σ : Type} (e : Engine σ) (data : Bytes) (dataFlags : DataFlags)
    (st : State σ) : OpenDataResult σ :=
  if data.isEmpty then
    { state := st,
      log := [Diagnostic.error "Trade::BasisImporter::openData(): the file is empty"],
      committed := none }
  else
    let session := e.create
    let st1 := { st with transcoder := some session }
    if !e.validate_header session data then
      { state := transcoderGuard st1,
        log := [Diagnostic.error "Trade::BasisImporter::openData(): invalid header"],
        committed := none }
    else
      match e.get_file_info session data with
      | .failed leftover =>
        { state := transcoderGuard { st1 with fileInfo := leftover st1.fileInfo },
          log := [Diagnostic.error "Trade::BasisImporter::openData(): bad basis file"],
          committed := none }
      | .filled info =>
        let st2 := { st1 with fileInfo := info }
        match e.start_transcoding session data with
        | (false, session') =>
          { state := transcoderGuard { st2 with transcoder := some session' },
            log := [Diagnostic.error "Trade::BasisImporter::openData(): bad basis file"],
            committed := none }
        | (true, session') =>
          let st3 := { st2 with transcoder := some session', isSrgb := e.headerFlagSRGB data }
          let array := commitInput data dataFlags
          { state := { st3 with in_ := array.bytes }, log := [], committed := some array }

/-- `BasisImporter::doOpenData`, lines 184-228: the state it leaves and what it
prints. -/
def doOpenData {σ : Type} (e : Engine σ) (data : Bytes) (dataFlags : DataFlags)
    (st : State σ) : State σ × List Diagnostic :=
  ((doOpenDataCommitted e data dataFlags st).state, (doOpenDataCommitted e data dataFlags st).log)

/-- `BasisImporter::doImage2DCount`, lines 230-232. -/
def doImage2DCount {σ : Type} (st : State σ) : Nat := st.fileInfo.m_total_images

/-- `BasisImporter::doImage2DLevelCount`, lines 234-236; `none` is an index
past the end of the vector. -/
def doImage2DLevelCount {σ : Type} (st : State σ) (id : Nat) : Option Nat :=
  st.fileInfo.m_image_mipmap_levels.get? id

/-! ## Per-level transcode -/

/-- `Vector2i::product()`: the product of the two `Int` components. A product
outside the range of `Int` is a signed overflow, which is undefined (`none`). -/
def vectorProduct (size : Int × Int) : Option Int :=
  if -2147483648 ≤ size.1 * size.2 ∧ size.1 * size.2 < 2147483648 then
    some (size.1 * size.2)
  else none

/-- The buffer geometry `doImage2D` derives from a level description. -/
structure LevelLayout where
  size : Int × Int
  rowStride : Nat
  outputRowsInPixels : Nat
  outputSizeInBlocksOrPixels : Nat
  dataSize : Nat
  deriving DecidableEq, Repr

/-- Lines 281-292 of `doImage2D`: `size`, `rowStride`, `outputRowsInPixels`,
`outputSizeInBlocksOrPixels` and `dataSize` from the engine's `origWidth`,
`origHeight`, `totalBlocks` and the engine's bytes per block or pixel. `none`
is the undefined `size.product()` of the uncompressed branch. -/
def levelLayout (isUncompressed : Bool) (bytesPerBlockOrPixel : Nat)
    (origWidth origHeight totalBlocks : Nat) : Option LevelLayout :=
  let size : Int × Int := (toInt origWidth, toInt origHeight)
  if isUncompressed then
    (vectorProduct size).map fun product =>
      { size := size,
        rowStride := toUnsignedInt size.1,
        outputRowsInPixels := toUnsignedInt size.2,
        outputSizeInBlocksOrPixels := toUnsignedInt product,
        dataSize := (bytesPerBlockOrPixel * toUnsignedInt product) % 4294967296 }
  else
    some
      { size := size,
        rowStride := 0,
        outputRowsInPixels := 0,
        outputSizeInBlocksOrPixels := totalBlocks % 4294967296,
        dataSize := (bytesPerBlockOrPixel * (totalBlocks % 4294967296)) % 4294967296 }

/-- Contents of an array that may hold bytes never written: `none` is a byte of
indeterminate value. -/
abbrev Buffer := List (Option (Fin 256))

/-- The buffer `dest` of `size` bytes, allocated with `DefaultInit` at line 293,
after the engine wrote `written` from its start: the bytes it did not reach
stay indeterminate. Writing past the end of the buffer is a memory error
(`none`). -/
def filledBuffer (size : Nat) (written : Bytes) : Option Buffer :=
  if written.length ≤ size then
    some (written.map some ++ List.replicate (size - written.length) none)
  else none

/-- Format tag of a `Trade::ImageData2D`. -/
inductive ImageFormat where
  | uncompressed (format : PixelFormat)
  | compressed (format : CompressedPixelFormat)
  deriving DecidableEq, Repr

/-- The branch of lines 299-302 of `doImage2D`: `pixelFormat` for an
uncompressed target, `compressedPixelFormat` otherwise. -/
def resolvePixelFormat (isUncompressed : Bool) (targetFormat : TargetFormat) (isSrgb : Bool) :
    Option ImageFormat :=
  if isUncompressed then (pixelFormat targetFormat isSrgb).map ImageFormat.uncompressed
  else (compressedPixelFormat targetFormat isSrgb).map ImageFormat.compressed

/-- A `Trade::ImageData2D`: format tag, size, owned data. -/
structure ImageData2D where
  format : ImageFormat
  size : Int × Int
  data : Buffer
  deriving DecidableEq, Repr

/-- What a returning `doImage2D` leaves: the returned optional image, the
state, the printed diagnostics. -/
structure Image2DResult (σ : Type) where
  image : Option ImageData2D
  state : State σ
  log : List Diagnostic
  deriving DecidableEq

/-- Text of the warning of line 243. -/
def noFormatWarning : String :=
  "Trade::BasisImporter::image2D(): no format to transcode to was specified, falling back to uncompressed RGBA8. To get rid of this warning either load the plugin via one of its BasisImporterEtc1RGB, ... aliases, or explicitly set the format option in plugin configuration."

/-- The identifiers the error of lines 249-250 lists after "expected to be one
of". -/
def expectedFormatNames : List String :=
  ["EacR", "EacRG", "Etc1RGB", "Etc2RGBA", "Bc1RGB", "Bc3RGBA", "Bc4R", "Bc5RG", "Bc7RGB",
   "Bc7RGBA", "Pvrtc1RGB4bpp", "Pvrtc1RGBA4bpp", "Astc4x4RGBA", "RGBA8"]

/-- Text of the error of lines 249-250 for the configured string. -/
def invalidFormatError (targetFormatStr : String) : String :=
  "Trade::BasisImporter::image2D(): invalid transcoding target format " ++ targetFormatStr ++
    (", expected to be one of " ++ ", ".intercalate expectedFormatNames)

/-- Text of the warning of line 277. -/
def notYFlippedWarning : String :=
  "Trade::BasisImporter::image2D(): the image was not encoded Y-flipped, imported data will have wrong orientation"

/-- Lines 255-302 of `doImage2D`, after the target format is resolved: `st` and
`log` are the state and the output so far. `none` is a failed
`CORRADE_INTERNAL_ASSERT*`, the use of an absent session, an undefined
`size.product()` or a write past the end of `dest`. -/
def transcodeLevel {σ : Type} (e : Engine σ) (targetFormat : TargetFormat) (st : State σ)
    (log : List Diagnostic) (id level : Nat) : Option (Image2DResult σ) :=
  let format := toInt targetFormat
  let isUncompressed := e.basis_transcoder_format_is_uncompressed format
  match st.transcoder with
  | none => none
  | some session =>
    if !e.get_image_info session st.in_ id then none
    else
      match e.get_image_level_desc session st.in_ id level with
      | none => none
      | some (origWidth, origHeight, totalBlocks) =>
        let flags := 0
        let log1 :=
          if !st.fileInfo.m_y_flipped then log ++ [Diagnostic.warning notYFlippedWarning]
          else log
        match levelLayout isUncompressed (e.basis_get_bytes_per_block_or_pixel format)
            origWidth origHeight totalBlocks with
        | none => none
        | some layout =>
          match e.transcode_image_level session st.in_ id level
              layout.outputSizeInBlocksOrPixels format flags layout.rowStride
              layout.outputRowsInPixels with
          | none =>
            some { image := none, state := st,
                   log := log1 ++
                     [Diagnostic.error "Trade::BasisImporter::image2D(): transcoding failed"] }
          | some written =>
            match filledBuffer layout.dataSize written with
            | none => none
            | some dest =>
              (resolvePixelFormat isUncompressed targetFormat st.isSrgb).map fun f =>
                { image := some { format := f, size := layout.size, data := dest },
                  state := st, log := log1 }

/-- `BasisImporter::doImage2D`, lines 238-303, with `format` the value of the
configuration option "format" (empty when unset). `none` is a failed
`CORRADE_INTERNAL_ASSERT*` or an undefined operation. -/
def doImage2D {σ : Type} (e : Engine σ) (format : String) (st : State σ) (id level : Nat) :
    Option (Image2DResult σ) :=
  if format = "" then
    let log :=
      if !st.noTranscodeFormatWarningPrinted then [Diagnostic.warning noFormatWarning] else []
    transcodeLevel e TargetFormat.RGBA8 { st with noTranscodeFormatWarningPrinted := true }
      log id level
  else
    match fromString format with
    | none => none
    | some targetFormat =>
      if targetFormat % 4294967296 = 4294967295 then
        some { image := none, state := st,
               log := [Diagnostic.error (invalidFormatError format)] }
      else transcodeLevel e targetFormat st [] id level

/-! ## Call sequences -/

/-- One call on the importer. -/
inductive Call where
  | close
  | openData (data : Bytes) (dataFlags : DataFlags)
  | image2D (format : String) (id level : Nat)

/-- State after one call; `none` when `doImage2D` does not return. -/
def step {σ : Type} (e : Engine σ) (st : State σ) : Call → Option (State σ)
  | .close => some (doClose st)
  | .openData data dataFlags => some (doOpenData e data dataFlags st).1
  | .image2D format id level => (doImage2D e format st id level).map fun r => r.state

/-- State after a sequence of calls, each made on the state the previous one
left. -/
def run {σ : Type} (e : Engine σ) (st : State σ) : List Call → Option (State σ)
  | [] => some st
  | c :: rest =>
    match step e st c with
    | none => none
    | some st' => run e st' rest

/-- The importer is `Closed`: no session and no data. -/
def State.isClosed {σ : Type} (st : State σ) : Bool :=
  st.transcoder.isNone && st.in_.isEmpty

/-- The engine accepts `data` in `doOpenData`: the header validates, the file
info is extracted and transcoding starts. -/
def engineAccepts {σ : Type} (e : Engine σ) (data : Bytes) : Bool :=
  e.validate_header e.create data &&
  (match e.get_file_info e.create data with
   | .filled _ => true
   | .failed _ => false) &&
  (e.start_transcoding e.create data).1

/-- No `doOpenData` of the sequence, run from `st`, fails on a non-empty input
while the importer holds a session or data. -/
def noFailedReopen {σ : Type} (e : Engine σ) (st : State σ) : List Call → Bool
  | [] => true
  | c :: rest =>
    (match c with
     | .openData data _ => st.isClosed || data.isEmpty || engineAccepts e data
     | _ => true) &&
    (match step e st c with
     | none => true
     | some st' => noFailedReopen e st' rest)

/-- A sequence of `doImage2D` calls with the same configured format, each on
the state the previous one left: the results in call order, `none` when a call
does not return. -/
def image2DSequence {σ : Type} (e : Engine σ) (format : String) (st : State σ) :
    List (Nat × Nat) → Option (List (Image2DResult σ))
  | [] => some []
  | (id, level) :: rest =>
    match doImage2D e format st id level with
    | none => none
    | some r => (image2DSequence e format r.state rest).map fun rs => r :: rs

/-- `doImage2D` meets no failed assertion and no undefined operation for this
image, level and target format: the engine answers the two queries of lines
266 and 271, the geometry of lines 281-292 is defined, and a succeeding
`transcode_image_level` stays inside the buffer. -/
def levelDescribed {σ : Type} (e : Engine σ) (session : σ) (data : Bytes)
    (targetFormat : TargetFormat) (id level : Nat) : Bool :=
  e.get_image_info session data id &&
  match e.get_image_level_desc session data id level with
  | none => false
  | some (origWidth, origHeight, totalBlocks) =>
    match levelLayout (e.basis_transcoder_format_is_uncompressed (toInt targetFormat))
        (e.basis_get_bytes_per_block_or_pixel (toInt targetFormat))
        origWidth origHeight totalBlocks with
    | none => false
    | some layout =>
      match e.transcode_image_level session data id level layout.outputSizeInBlocksOrPixels
          (toInt targetFormat) 0 layout.rowStride layout.outputRowsInPixels with
      | none => true
      | some written => decide (written.length ≤ layout.dataSize)

/-- The engine's `transcode_image_level` succeeds on the call `doImage2D` makes
for this image, level and target format. -/
def levelTranscodes {σ : Type} (e : Engine σ) (session : σ) (data : Bytes)
    (targetFormat : TargetFormat) (id level : Nat) : Bool :=
  match e.get_image_level_desc session data id level with
  | none => false
  | some (origWidth, origHeight, totalBlocks) =>
    match levelLayout (e.basis_transcoder_format_is_uncompressed (toInt targetFormat))
        (e.basis_get_bytes_per_block_or_pixel (toInt targetFormat))
        origWidth origHeight totalBlocks with
    | none => false
    | some layout =>
      (e.transcode_image_level session data id level layout.outputSizeInBlocksOrPixels
        (toInt targetFormat) 0 layout.rowStride layout.outputRowsInPixels).isSome

/-- Some call of the sequence is a `doImage2D` with the "format" option unset. -/
def hadUnsetFormatCall : List Call → Bool
  | [] => false
  | Call.image2D format _ _ :: rest => decide (format = "") || hadUnsetFormatCall rest
  | _ :: rest => hadUnsetFormatCall rest

/-! ## Plugin alias construction -/

/-- `Utility::String::beginsWith` on the characters of the two strings. -/
def beginsWithChars : List Char → List Char → Bool
  | _, [] => true
  | [], _ :: _ => false
  | c :: cs, p :: ps => c == p && beginsWithChars cs ps

/-- `Corrade::Utility::String::beginsWith(string, start)`. -/
def beginsWith (string start : String) : Bool := beginsWithChars string.data start.data

/-- Lines 160-165 of the plugin-manager constructor: the value it passes to
`configuration().setValue("format", ...)`, `none` when it makes no such call.
A `std::string` is the list of its characters; `substr(13)` drops the first
thirteen. -/
def aliasFormat (plugin : String) : Option String :=
  if beginsWith plugin "BasisImporter" then
    if plugin.length > 13 then some (String.mk (plugin.data.drop 13)) else none
  else none

/-! ## A small engine for concrete runs -/

/-- Bytes per block or pixel of Basis Universal for the texture formats 0-21. -/
def sampleBytesPerBlockOrPixel (format : Int) : Nat :=
  if format = 13 then 4
  else if format = 14 ∨ format = 15 ∨ format = 16 then 2
  else if format = 1 ∨ format = 3 ∨ format = 5 ∨ format = 6 ∨ format = 7 ∨ format = 10 ∨
      format = 12 ∨ format = 21 then 16
  else 8

/-- An engine over sessions that only record whether transcoding was started.
It accepts data that starts with the bytes 115, 66 and has at least four
bytes; the third byte holds the flags (bit 0: sRGB, bit 1: Y-flipped), the
fourth the binary logarithm of the side length of the single square image.
Transcoding writes nothing and fails for the PVRTC formats 8 and 9. -/
def sampleEngine : Engine Bool where
  create := false
  validate_header := fun _ data => data.take 2 == [115, 66]
  get_file_info := fun _ data =>
    match data.get? 2 with
    | none => FileInfoResult.failed fun info => { info with m_total_images := 0 }
    | some flags =>
      FileInfoResult.filled
        { m_total_images := 1, m_image_mipmap_levels := [1],
          m_y_flipped := decide (flags.val / 2 % 2 = 1) }
  start_transcoding := fun _ data => (decide (4 ≤ data.length), true)
  headerFlagSRGB := fun data =>
    match data.get? 2 with
    | none => false
    | some flags => decide (flags.val % 2 = 1)
  get_image_info := fun session _ id => session && decide (id = 0)
  get_image_level_desc := fun session data id level =>
    match data.get? 3 with
    | none => none
    | some side =>
      if session && decide (id = 0) && decide (level = 0) then
        some (2 ^ side.val, 2 ^ side.val, ((2 ^ side.val + 3) / 4) * ((2 ^ side.val + 3) / 4))
      else none
  transcode_image_level := fun session _ id level _ format _ _ _ =>
    if session && decide (id = 0) && decide (level = 0) && decide (format ≠ 8 ∧ format ≠ 9)
    then some [] else none
  basis_transcoder_format_is_uncompressed := fun format =>
    decide (format = 13 ∨ format = 14 ∨ format = 15 ∨ format = 16)
  basis_get_bytes_per_block_or_pixel := sampleBytesPerBlockOrPixel

/-- Data the sample engine accepts: linear, Y-flipped, one 2 x 2 image. -/
def sampleFile : Bytes := [115, 66, 2, 1]

/-- Data the sample engine rejects at header validation. -/
def sampleGarbage : Bytes := [0, 1, 2, 3]

/-- Data that passes header validation and file info extraction of the sample
engine but on which transcoding does not start. -/
def sampleTruncated : Bytes := [115, 66, 2]

/-- The sample engine's importer after opening `sampleFile`. -/
def sampleOpened : State Bool := (doOpenData sampleEngine sampleFile [] (State.fresh false)).1

/-! ## Format negotiation: theorems -/

/-- The error of lines 249-250 as one text: the configured string follows the
first literal after a space, the second literal follows without one. -/
theorem invalidFormatError_text (targetFormatStr : String) :
    invalidFormatError targetFormatStr =
      "Trade::BasisImporter::image2D(): invalid transcoding target format " ++ targetFormatStr ++
        ", expected to be one of EacR, EacRG, Etc1RGB, Etc2RGBA, Bc1RGB, Bc3RGBA, Bc4R, Bc5RG, Bc7RGB, Bc7RGBA, Pvrtc1RGB4bpp, Pvrtc1RGBA4bpp, Astc4x4RGBA, RGBA8" := by
  unfold invalidFormatError
  congr 1

/-- The supported names are the fourteen names of the table, in table order. -/
theorem supportedNames_eq :
    supportedNames =
      ["Etc1RGB", "Etc2RGBA", "Bc1RGB", "Bc3RGBA", "Bc4R", "Bc5RG", "Bc7RGB", "Bc7RGBA",
       "PvrtcRGB4bpp", "PvrtcRGBA4bpp", "Astc4x4RGBA", "RGBA8", "EacR", "EacRG"] := by
  decide

/-- Membership in the supported names, as a disjunction. -/
theorem mem_supportedNames (s : String) :
    s ∈ supportedNames ↔
      s = "Etc1RGB" ∨ s = "Etc2RGBA" ∨ s = "Bc1RGB" ∨ s = "Bc3RGBA" ∨ s = "Bc4R" ∨
      s = "Bc5RG" ∨ s = "Bc7RGB" ∨ s = "Bc7RGBA" ∨ s = "PvrtcRGB4bpp" ∨
      s = "PvrtcRGBA4bpp" ∨ s = "Astc4x4RGBA" ∨ s = "RGBA8" ∨ s = "EacR" ∨ s = "EacRG" := by
  rw [supportedNames_eq]
  simp only [List.mem_cons, List.mem_singleton, List.not_mem_nil, or_false]

/-- On a supported name the scan stops at an index below the table length and
`toString` gives the name back. -/
theorem fromString_of_mem (s : String) (h : s ∈ supportedNames) :
    ∃ t, fromString s = some t ∧ t < 22 ∧ t ∈ TargetFormat.enumerators ∧
      toString t = some s := by
  rw [mem_supportedNames] at h
  rcases h with h | h | h | h | h | h | h | h | h | h | h | h | h | h <;> subst h <;> decide

/-- On a string that is not a supported name the scan runs to the end. -/
theorem fromString_of_not_mem (s : String) (h : s ∉ supportedNames) :
    fromString s = some TargetFormat.invalid := by
  rw [mem_supportedNames] at h
  simp only [not_or] at h
  obtain ⟨h1, h2, h3, h4, h5, h6, h7, h8, h9, h10, h11, h12, h13, h14⟩ := h
  simp [fromString, fromStringLoop, FormatNames, stringEqCStr, h1, h2, h3, h4, h5, h6, h7, h8,
    h9, h10, h11, h12, h13, h14, toUnsignedInt, TargetFormat.invalid]

/-- C1. Round trip of the format name table: for each of the fourteen supported
names `n` (the non-null entries of `FormatNames`), `fromString n` is defined and
`toString` of it is `n`. -/
theorem toString_fromString_roundtrip (n : String)
    (h : n ∈ ["Etc1RGB", "Etc2RGBA", "Bc1RGB", "Bc3RGBA", "Bc4R", "Bc5RG", "Bc7RGB", "Bc7RGBA",
       "PvrtcRGB4bpp", "PvrtcRGBA4bpp", "Astc4x4RGBA", "RGBA8", "EacR", "EacRG"]) :
    n ∈ supportedNames ∧ (fromString n).bind toString = some n := by
  rw [← supportedNames_eq] at h
  obtain ⟨t, ht, _, _, hs⟩ := fromString_of_mem n h
  exact ⟨h, by rw [ht]; exact hs⟩

/-- Witness of C1 at the name RGBA8. -/
theorem toString_fromString_roundtrip_witness :
    "RGBA8" ∈ supportedNames ∧ (fromString "RGBA8").bind toString = some "RGBA8" :=
  toString_fromString_roundtrip "RGBA8" (by decide)

/-- C2. `fromString s` is the sentinel `TargetFormat(~0u)` exactly when `s` is
not one of the fourteen supported names; the scan is defined for every string
(no null table entry is read), and the empty string yields the sentinel. -/
theorem fromString_invalid_iff (s : String) :
    (fromString s = some TargetFormat.invalid ↔ s ∉ supportedNames) ∧
    (fromString s).isSome = true ∧
    fromString "" = some TargetFormat.invalid := by
  by_cases h : s ∈ supportedNames
  · obtain ⟨t, ht, hlt, _, _⟩ := fromString_of_mem s h
    refine ⟨?_, by rw [ht]; rfl, by decide⟩
    constructor
    · intro hs
      rw [ht] at hs
      have ht' : t = TargetFormat.invalid := Option.some.inj hs
      rw [ht'] at hlt
      exact absurd hlt (by decide)
    · intro hn
      exact absurd h hn
  · refine ⟨?_, by rw [fromString_of_not_mem s h]; rfl, by decide⟩
    exact ⟨fun _ => h, fun _ => fromString_of_not_mem s h⟩

/-- Every value `fromString` returns is an enumerator or the sentinel. -/
theorem fromString_mem_enumerators (s : String) (t : TargetFormat)
    (h : fromString s = some t) (hv : t ≠ TargetFormat.invalid) :
    t ∈ TargetFormat.enumerators := by
  by_cases hs : s ∈ supportedNames
  · obtain ⟨u, hu, _, hmem, _⟩ := fromString_of_mem s hs
    rw [hu] at h
    rw [← Option.some.inj h]
    exact hmem
  · rw [fromString_of_not_mem s hs] at h
    exact absurd (Option.some.inj h).symm hv

/-- C7. Format resolution is total: for every `TargetFormat` enumerator and
both values of `isSrgb`, `pixelFormat` is defined exactly for `RGBA8` and
`compressedPixelFormat` exactly for the other thirteen, so exactly one of them
is defined. With an engine that takes the uncompressed branch exactly for the
uncompressed target, the resolution of `doImage2D` is defined for every
enumerator, hence for every configured name that `fromString` resolves and for
the `RGBA8` default; equal arguments give equal results. -/
theorem format_resolution_total {σ : Type} (e : Engine σ)
    (hU : ∀ t ∈ TargetFormat.enumerators,
      e.basis_transcoder_format_is_uncompressed (toInt t) = decide (t = TargetFormat.RGBA8))
    (t : TargetFormat) (ht : t ∈ TargetFormat.enumerators) (isSrgb : Bool) :
    ((pixelFormat t isSrgb).isSome = true ↔ t = TargetFormat.RGBA8) ∧
    ((compressedPixelFormat t isSrgb).isSome = true ↔ t ≠ TargetFormat.RGBA8) ∧
    ((pixelFormat t isSrgb).isSome = true ↔ (compressedPixelFormat t isSrgb).isSome = false) ∧
    (resolvePixelFormat (e.basis_transcoder_format_is_uncompressed (toInt t)) t isSrgb).isSome
      = true ∧
    (∀ name t', fromString name = some t' → t' ≠ TargetFormat.invalid →
      (resolvePixelFormat (e.basis_transcoder_format_is_uncompressed (toInt t')) t'
        isSrgb).isSome = true) ∧
    (∀ t' isSrgb', t' = t → isSrgb' = isSrgb →
      pixelFormat t' isSrgb' = pixelFormat t isSrgb ∧
      compressedPixelFormat t' isSrgb' = compressedPixelFormat t isSrgb) := by
  have key : ∀ u ∈ TargetFormat.enumerators, ∀ b : Bool,
      ((pixelFormat u b).isSome = true ↔ u = TargetFormat.RGBA8) ∧
      ((compressedPixelFormat u b).isSome = true ↔ u ≠ TargetFormat.RGBA8) ∧
      ((pixelFormat u b).isSome = true ↔ (compressedPixelFormat u b).isSome = false) ∧
      (resolvePixelFormat (decide (u = TargetFormat.RGBA8)) u b).isSome = true := by
    decide
  obtain ⟨k1, k2, k3, k4⟩ := key t ht isSrgb
  refine ⟨k1, k2, k3, ?_, ?_, ?_⟩
  · rw [hU t ht]
    exact k4
  · intro name t' hname hv
    have ht' := fromString_mem_enumerators name t' hname hv
    rw [hU t' ht']
    exact (key t' ht' isSrgb).2.2.2
  · intro t' isSrgb' h1 h2
    subst h1
    subst h2
    exact ⟨rfl, rfl⟩

/-- Witness of C7: the sample engine at the enumerator `RGBA8`, linear. -/
theorem format_resolution_total_witness :
    (resolvePixelFormat
      (sampleEngine.basis_transcoder_format_is_uncompressed (toInt TargetFormat.RGBA8))
      TargetFormat.RGBA8 false).isSome = true :=
  (format_resolution_total sampleEngine (by decide) TargetFormat.RGBA8 (by decide) false).2.2.2.1

/-- C8. Colour-space selection: for `RGBA8`, `Etc1RGB`, `Etc2RGBA`, `Bc1RGB`,
`Bc3RGBA`, `Bc7RGB`, `Bc7RGBA`, `PvrtcRGB4bpp`, `PvrtcRGBA4bpp` and
`Astc4x4RGBA` the resolved format is the `Srgb` variant for `isSrgb = true` and
the `Unorm` variant of the same format for `isSrgb = false`, and the two
differ; for `Bc4R`, `Bc5RG`, `EacR` and `EacRG` the resolved format does not
depend on `isSrgb`. -/
theorem colour_space_selection :
    (pixelFormat TargetFormat.RGBA8 true = some PixelFormat.RGBA8Srgb ∧
     pixelFormat TargetFormat.RGBA8 false = some PixelFormat.RGBA8Unorm) ∧
    (compressedPixelFormat TargetFormat.Etc1RGB true = some CompressedPixelFormat.Etc2RGB8Srgb ∧
     compressedPixelFormat TargetFormat.Etc1RGB false = some CompressedPixelFormat.Etc2RGB8Unorm) ∧
    (compressedPixelFormat TargetFormat.Etc2RGBA true = some CompressedPixelFormat.Etc2RGBA8Srgb ∧
     compressedPixelFormat TargetFormat.Etc2RGBA false = some CompressedPixelFormat.Etc2RGBA8Unorm) ∧
    (compressedPixelFormat TargetFormat.Bc1RGB true = some CompressedPixelFormat.Bc1RGBSrgb ∧
     compressedPixelFormat TargetFormat.Bc1RGB false = some CompressedPixelFormat.Bc1RGBUnorm) ∧
    (compressedPixelFormat TargetFormat.Bc3RGBA true = some CompressedPixelFormat.Bc3RGBASrgb ∧
     compressedPixelFormat TargetFormat.Bc3RGBA false = some CompressedPixelFormat.Bc3RGBAUnorm) ∧
    (compressedPixelFormat TargetFormat.Bc7RGB true = some CompressedPixelFormat.Bc7RGBASrgb ∧
     compressedPixelFormat TargetFormat.Bc7RGB false = some CompressedPixelFormat.Bc7RGBAUnorm) ∧
    (compressedPixelFormat TargetFormat.Bc7RGBA true = some CompressedPixelFormat.Bc7RGBASrgb ∧
     compressedPixelFormat TargetFormat.Bc7RGBA false = some CompressedPixelFormat.Bc7RGBAUnorm) ∧
    (compressedPixelFormat TargetFormat.PvrtcRGB4bpp true
        = some CompressedPixelFormat.PvrtcRGB4bppSrgb ∧
     compressedPixelFormat TargetFormat.PvrtcRGB4bpp false
        = some CompressedPixelFormat.PvrtcRGB4bppUnorm) ∧
    (compressedPixelFormat TargetFormat.PvrtcRGBA4bpp true
        = some CompressedPixelFormat.PvrtcRGBA4bppSrgb ∧
     compressedPixelFormat TargetFormat.PvrtcRGBA4bpp false
        = some CompressedPixelFormat.PvrtcRGBA4bppUnorm) ∧
    (compressedPixelFormat TargetFormat.Astc4x4RGBA true
        = some CompressedPixelFormat.Astc4x4RGBASrgb ∧
     compressedPixelFormat TargetFormat.Astc4x4RGBA false
        = some CompressedPixelFormat.Astc4x4RGBAUnorm) ∧
    (∀ t ∈ [TargetFormat.RGBA8, TargetFormat.Etc1RGB, TargetFormat.Etc2RGBA, TargetFormat.Bc1RGB,
        TargetFormat.Bc3RGBA, TargetFormat.Bc7RGB, TargetFormat.Bc7RGBA,
        TargetFormat.PvrtcRGB4bpp, TargetFormat.PvrtcRGBA4bpp, TargetFormat.Astc4x4RGBA],
      pixelFormat t true ≠ pixelFormat t false ∨
      compressedPixelFormat t true ≠ compressedPixelFormat t false) ∧
    (∀ isSrgb : Bool,
      compressedPixelFormat TargetFormat.Bc4R isSrgb = some CompressedPixelFormat.Bc4RUnorm ∧
      compressedPixelFormat TargetFormat.Bc5RG isSrgb = some CompressedPixelFormat.Bc5RGUnorm ∧
      compressedPixelFormat TargetFormat.EacR isSrgb = some CompressedPixelFormat.EacR11Unorm ∧
      compressedPixelFormat TargetFormat.EacRG isSrgb = some CompressedPixelFormat.EacRG11Unorm) := by
  decide

/-! ## Container lifecycle: theorems -/

/-- Copying into a fresh array of the same size reproduces the source. -/
theorem copyBytes_noInitArray (data : Bytes) :
    copyBytes data (noInitArray data.length) = data := by
  unfold copyBytes noInitArray
  induction data with
  | nil => rfl
  | cons b rest ih => simpa [List.replicate_succ] using ih

/-- `doOpenData` written out branch by branch. -/
theorem doOpenData_eq {σ : Type} (e : Engine σ) (data : Bytes) (dataFlags : DataFlags)
    (st : State σ) :
    doOpenData e data dataFlags st =
      if data.isEmpty then
        (st, [Diagnostic.error "Trade::BasisImporter::openData(): the file is empty"])
      else
        if !e.validate_header e.create data then
          (transcoderGuard { st with transcoder := some e.create },
            [Diagnostic.error "Trade::BasisImporter::openData(): invalid header"])
        else
          match e.get_file_info e.create data with
          | .failed leftover =>
            (transcoderGuard
              { st with transcoder := some e.create, fileInfo := leftover st.fileInfo },
              [Diagnostic.error "Trade::BasisImporter::openData(): bad basis file"])
          | .filled info =>
            match e.start_transcoding e.create data with
            | (false, session') =>
              (transcoderGuard { st with transcoder := some session', fileInfo := info },
                [Diagnostic.error "Trade::BasisImporter::openData(): bad basis file"])
            | (true, session') =>
              ({ st with transcoder := some session', fileInfo := info,
                         isSrgb := e.headerFlagSRGB data,
                         in_ := (commitInput data dataFlags).bytes }, []) := by
  unfold doOpenData doOpenDataCommitted
  cases hd : data.isEmpty with
  | true => simp
  | false =>
    cases hv : e.validate_header e.create data with
    | false => simp [hv]
    | true =>
      cases hf : e.get_file_info e.create data with
      | failed leftover => simp [hv, hf]
      | filled info =>
        rcases hs : e.start_transcoding e.create data with ⟨_ | _, session'⟩ <;>
          simp [hv, hf, hs]

/-- The array `doOpenData` commits holds the bytes of the input, on both
branches. -/
theorem commitInput_bytes (data : Bytes) (dataFlags : DataFlags) :
    (commitInput data dataFlags).bytes = data := by
  unfold commitInput
  split
  · rfl
  · exact copyBytes_noInitArray data

/-- A rejected non-empty input: the session is released, the data is as
before, an error is printed; only the cached file info may have been written. -/
theorem doOpenData_of_reject {σ : Type} (e : Engine σ) (data : Bytes) (dataFlags : DataFlags)
    (st : State σ) (hne : data ≠ []) (hrej : engineAccepts e data = false) :
    ∃ info message,
      doOpenData e data dataFlags st =
        ({ st with transcoder := none, fileInfo := info }, [Diagnostic.error message]) := by
  have hemp : data.isEmpty = false := by
    cases data with
    | nil => exact absurd rfl hne
    | cons _ _ => rfl
  unfold engineAccepts at hrej
  rw [doOpenData_eq]
  simp only [hemp, Bool.false_eq_true, if_false]
  cases hv : e.validate_header e.create data with
  | false =>
    simp only [hv, Bool.not_false, if_true, transcoderGuard]
    exact ⟨st.fileInfo, _, rfl⟩
  | true =>
    simp only [hv, Bool.not_true, Bool.false_eq_true, if_false]
    simp only [hv, Bool.true_and] at hrej
    cases hf : e.get_file_info e.create data with
    | failed leftover =>
      simp only [hf, transcoderGuard]
      exact ⟨leftover st.fileInfo, _, rfl⟩
    | filled info =>
      simp only [hf, Bool.true_and] at hrej
      cases hs : e.start_transcoding e.create data with
      | mk ok session' =>
        rw [hs] at hrej
        simp only at hrej
        subst hrej
        simp only [hf, hs, transcoderGuard]
        exact ⟨info, _, rfl⟩

/-- An accepted non-empty input: the session the engine started, the input
bytes, the extracted file info and the header's sRGB flag are stored, nothing
is printed. -/
theorem doOpenData_of_accept {σ : Type} (e : Engine σ) (data : Bytes) (dataFlags : DataFlags)
    (st : State σ) (hne : data ≠ []) (hacc : engineAccepts e data = true) :
    ∃ info session,
      e.get_file_info e.create data = FileInfoResult.filled info ∧
      e.start_transcoding e.create data = (true, session) ∧
      doOpenData e data dataFlags st =
        ({ transcoder := some session, in_ := data, fileInfo := info,
           isSrgb := e.headerFlagSRGB data,
           noTranscodeFormatWarningPrinted := st.noTranscodeFormatWarningPrinted }, []) := by
  have hemp : data.isEmpty = false := by
    cases data with
    | nil => exact absurd rfl hne
    | cons _ _ => rfl
  unfold engineAccepts at hacc
  rw [doOpenData_eq]
  simp only [hemp, Bool.false_eq_true, if_false]
  cases hv : e.validate_header e.create data with
  | false => simp [hv] at hacc
  | true =>
    simp only [hv, Bool.true_and] at hacc
    cases hf : e.get_file_info e.create data with
    | failed leftover => simp [hf] at hacc
    | filled info =>
      simp only [hf, Bool.true_and] at hacc
      cases hs : e.start_transcoding e.create data with
      | mk ok session' =>
        rw [hs] at hacc
        simp only at hacc
        subst hacc
        refine ⟨info, session', rfl, rfl, ?_⟩
        simp [commitInput_bytes]

/-- A `Closed` state has no session and no data. -/
theorem State.isClosed_iff {σ : Type} (st : State σ) :
    st.isClosed = true ↔ st.transcoder = none ∧ st.in_ = [] := by
  unfold State.isClosed
  cases st.transcoder <;> cases st.in_ <;> simp

/-- `doIsOpened` on a state whose session and data are both present or both
absent. -/
theorem doIsOpened_of_consistent {σ : Type} (st : State σ)
    (h : st.transcoder.isSome = true ↔ st.in_ ≠ []) :
    doIsOpened st = some (!st.in_.isEmpty) := by
  unfold doIsOpened
  cases ht : st.transcoder <;> cases hi : st.in_ <;> simp_all

/-- On empty data `doOpenData` prints "the file is empty" and returns the state
it was given. -/
theorem doOpenData_nil {σ : Type} (e : Engine σ) (dataFlags : DataFlags) (st : State σ) :
    doOpenData e [] dataFlags st =
      (st, [Diagnostic.error "Trade::BasisImporter::openData(): the file is empty"]) := rfl

/-- C3. Transactional open: from a `Closed` importer, a `doOpenData` on a
non-empty input that the engine rejects (header validation, file info
extraction or start of transcoding fails) prints an error and returns with the
session absent and the byte buffer empty, so `isOpened()` is `false`; a
following `doOpenData` on an input the engine accepts then opens the importer
and gives exactly the result the same call gives without the failed attempt,
with the session, bytes, file info and sRGB flag of a fresh importer opening
that input. -/
theorem doOpenData_failure_is_transactional {σ : Type} (e : Engine σ) (st : State σ)
    (bad good : Bytes) (badFlags goodFlags : DataFlags)
    (hclosed : st.isClosed = true)
    (hbad : bad ≠ []) (hrej : engineAccepts e bad = false)
    (hgood : good ≠ []) (hacc : engineAccepts e good = true) :
    (doOpenData e bad badFlags st).1.transcoder = none ∧
    (doOpenData e bad badFlags st).1.in_ = [] ∧
    doIsOpened (doOpenData e bad badFlags st).1 = some false ∧
    (∃ message, (doOpenData e bad badFlags st).2 = [Diagnostic.error message]) ∧
    doIsOpened (doOpenData e good goodFlags (doOpenData e bad badFlags st).1).1 = some true ∧
    doOpenData e good goodFlags (doOpenData e bad badFlags st).1
      = doOpenData e good goodFlags st ∧
    (∀ isSrgb : Bool,
      (doOpenData e good goodFlags (doOpenData e bad badFlags st).1).1.transcoder
        = (doOpenData e good goodFlags (State.fresh isSrgb)).1.transcoder ∧
      (doOpenData e good goodFlags (doOpenData e bad badFlags st).1).1.in_
        = (doOpenData e good goodFlags (State.fresh isSrgb)).1.in_ ∧
      (doOpenData e good goodFlags (doOpenData e bad badFlags st).1).1.fileInfo
        = (doOpenData e good goodFlags (State.fresh isSrgb)).1.fileInfo ∧
      (doOpenData e good goodFlags (doOpenData e bad badFlags st).1).1.isSrgb
        = (doOpenData e good goodFlags (State.fresh isSrgb)).1.isSrgb ∧
      (doOpenData e good goodFlags (doOpenData e bad badFlags st).1).2
        = (doOpenData e good goodFlags (State.fresh isSrgb)).2) := by
  obtain ⟨hT, hI⟩ := (State.isClosed_iff st).1 hclosed
  obtain ⟨info, message, hfail⟩ := doOpenData_of_reject e bad badFlags st hbad hrej
  obtain ⟨info3, s3, hf3, hs3, h3⟩ :=
    doOpenData_of_accept e good goodFlags (doOpenData e bad badFlags st).1 hgood hacc
  obtain ⟨info2, s2, hf2, hs2, h2⟩ := doOpenData_of_accept e good goodFlags st hgood hacc
  have hgoodEmpty : good.isEmpty = false := by
    cases good with
    | nil => exact absurd rfl hgood
    | cons _ _ => rfl
  refine ⟨by rw [hfail], by rw [hfail]; exact hI, ?_, ⟨message, by rw [hfail]⟩, ?_, ?_, ?_⟩
  · rw [hfail]
    simp [doIsOpened, hI]
  · rw [h3]
    simp [doIsOpened, hgoodEmpty]
  · rw [h3, h2, hfail]
    rw [hf2] at hf3
    rw [hs2] at hs3
    cases hf3
    cases hs3
    rfl
  · intro isSrgb
    obtain ⟨info4, s4, hf4, hs4, h4⟩ :=
      doOpenData_of_accept e good goodFlags (State.fresh isSrgb) hgood hacc
    rw [h3, h4]
    rw [hf4] at hf3
    rw [hs4] at hs3
    cases hf3
    cases hs3
    exact ⟨rfl, rfl, rfl, rfl, rfl⟩

/-- Witness of C3: the sample engine, a fresh importer, a file with a bad
header followed by a good file. -/
theorem doOpenData_failure_is_transactional_witness :
    doIsOpened (doOpenData sampleEngine sampleGarbage [] (State.fresh false)).1 = some false ∧
    doOpenData sampleEngine sampleFile []
        (doOpenData sampleEngine sampleGarbage [] (State.fresh false)).1
      = doOpenData sampleEngine sampleFile [] (State.fresh false) :=
  have h := doOpenData_failure_is_transactional sampleEngine (State.fresh false)
    sampleGarbage sampleFile [] [] (by decide) (by decide) (by decide) (by decide) (by decide)
  ⟨h.2.2.1, h.2.2.2.2.2.1⟩

/-- Counterexample to C4 as stated: on the opened sample importer `doOpenData`
with empty data leaves the session and the data in place, and `isOpened()`
stays `true`. -/
theorem doOpenData_empty_on_opened :
    doIsOpened sampleOpened = some true ∧
    (doOpenData sampleEngine [] [] sampleOpened).1.transcoder = some true ∧
    (doOpenData sampleEngine [] [] sampleOpened).1.in_ = sampleFile ∧
    doIsOpened (doOpenData sampleEngine [] [] sampleOpened).1 = some true := by
  decide

/-- C4, amended. For every importer state, every engine and every ownership
flag, `doOpenData` with empty data prints the error "the file is empty" and
leaves the whole state as it was (no session is created); so a `Closed`
importer stays `Closed`, with `isOpened() == false`. -/
theorem doOpenData_empty {σ : Type} (e : Engine σ) (dataFlags : DataFlags) (st : State σ) :
    doOpenData e [] dataFlags st =
      (st, [Diagnostic.error "Trade::BasisImporter::openData(): the file is empty"]) ∧
    (st.isClosed = true →
      (doOpenData e [] dataFlags st).1.isClosed = true ∧
      doIsOpened (doOpenData e [] dataFlags st).1 = some false) := by
  have h := doOpenData_nil e dataFlags st
  refine ⟨h, fun hc => ?_⟩
  rw [h]
  obtain ⟨hT, hI⟩ := (State.isClosed_iff st).1 hc
  exact ⟨hc, by simp [doIsOpened, hT, hI]⟩

/-- Witness of C4, amended: a fresh importer. -/
theorem doOpenData_empty_witness :
    doIsOpened (doOpenData sampleEngine [] [DataFlag.Owned] (State.fresh false)).1 = some false :=
  ((doOpenData_empty sampleEngine [DataFlag.Owned] (State.fresh false)).2 (by decide)).2

/-! ## Per-level transcode: theorems -/

/-- No enumerator is taken for the sentinel by the test of line 248. -/
theorem enumerators_ne_sentinel :
    ∀ t ∈ TargetFormat.enumerators, ¬ (t % 4294967296 = 4294967295) := by
  decide

/-- `transcodeLevel` returns the state it was given. -/
theorem transcodeLevel_state {σ : Type} (e : Engine σ) (targetFormat : TargetFormat)
    (st : State σ) (log : List Diagnostic) (id level : Nat) (r : Image2DResult σ)
    (h : transcodeLevel e targetFormat st log id level = some r) : r.state = st := by
  unfold transcodeLevel at h
  simp only at h
  split at h
  · cases h
  · split at h
    · cases h
    · split at h
      · cases h
      · split at h
        · cases h
        · split at h
          · cases h
            rfl
          · split at h
            · cases h
            · rw [Option.map_eq_some'] at h
              obtain ⟨f, _, hf⟩ := h
              rw [← hf]

/-- A returning `doImage2D` leaves the session, the data, the file info and
the sRGB flag as they were. -/
theorem doImage2D_frame {σ : Type} (e : Engine σ) (format : String) (st : State σ)
    (id level : Nat) (r : Image2DResult σ) (h : doImage2D e format st id level = some r) :
    r.state.transcoder = st.transcoder ∧ r.state.in_ = st.in_ ∧
    r.state.fileInfo = st.fileInfo ∧ r.state.isSrgb = st.isSrgb := by
  unfold doImage2D at h
  split at h
  · rw [transcodeLevel_state e _ _ _ id level r h]
    exact ⟨rfl, rfl, rfl, rfl⟩
  · split at h
    · cases h
    · split at h
      · cases h
        exact ⟨rfl, rfl, rfl, rfl⟩
      · rw [transcodeLevel_state e _ _ _ id level r h]
        exact ⟨rfl, rfl, rfl, rfl⟩

/-- One call keeps "session present iff data present", unless it is a
`doOpenData` that fails on a non-empty input while the importer holds a session
or data. -/
theorem step_consistent {σ : Type} (e : Engine σ) (st st' : State σ) (c : Call)
    (hinv : st.transcoder.isSome = true ↔ st.in_ ≠ [])
    (hsafe : ∀ data dataFlags, c = Call.openData data dataFlags →
      (st.isClosed || data.isEmpty || engineAccepts e data) = true)
    (hstep : step e st c = some st') :
    st'.transcoder.isSome = true ↔ st'.in_ ≠ [] := by
  cases c with
  | close =>
    cases hstep
    simp [doClose]
  | image2D format id level =>
    simp only [step, Option.map_eq_some'] at hstep
    obtain ⟨r, hr, rfl⟩ := hstep
    obtain ⟨h1, h2, _, _⟩ := doImage2D_frame e format st id level r hr
    rw [h1, h2]
    exact hinv
  | openData data dataFlags =>
    simp only [step, Option.some.injEq] at hstep
    subst hstep
    have hs := hsafe data dataFlags rfl
    by_cases hemp : data = []
    · subst hemp
      rw [doOpenData_nil e dataFlags st]
      exact hinv
    · by_cases hacc : engineAccepts e data = true
      · obtain ⟨info, session, _, _, h⟩ := doOpenData_of_accept e data dataFlags st hemp hacc
        rw [h]
        simpa using hemp
      · have hrej : engineAccepts e data = false := by simpa using hacc
        have hne : data.isEmpty = false := by
          cases data with
          | nil => exact absurd rfl hemp
          | cons _ _ => rfl
        rw [hrej, hne] at hs
        simp only [Bool.or_false] at hs
        obtain ⟨_, hI⟩ := (State.isClosed_iff st).1 hs
        obtain ⟨info, message, h⟩ := doOpenData_of_reject e data dataFlags st hemp hrej
        rw [h]
        simp [hI]

/-- Where the invariant does hold: in every state reached from a freshly
constructed importer by a sequence of `doClose`, `doOpenData` and `doImage2D`
calls in which no `doOpenData` on a non-empty input fails while the importer is
not `Closed`, the session is present if and only if the stored byte buffer is
non-empty, and the assertion in `doIsOpened` holds. -/
theorem lifecycle_invariant {σ : Type} (e : Engine σ) (isSrgb : Bool) (calls : List Call)
    (st : State σ) (hsafe : noFailedReopen e (State.fresh isSrgb) calls = true)
    (hrun : run e (State.fresh isSrgb) calls = some st) :
    (st.transcoder.isSome = true ↔ st.in_ ≠ []) ∧
    doIsOpened st = some (!st.in_.isEmpty) := by
  have main : ∀ (cs : List Call) (s0 : State σ),
      (s0.transcoder.isSome = true ↔ s0.in_ ≠ []) → noFailedReopen e s0 cs = true →
      run e s0 cs = some st → (st.transcoder.isSome = true ↔ st.in_ ≠ []) := by
    intro cs
    induction cs with
    | nil =>
      intro s0 h0 _ hr
      cases hr
      exact h0
    | cons c rest ih =>
      intro s0 h0 hs hr
      simp only [run] at hr
      simp only [noFailedReopen, Bool.and_eq_true] at hs
      cases hstep : step e s0 c with
      | none => simp [hstep] at hr
      | some s1 =>
        rw [hstep] at hr
        have hs2 := hs.2
        rw [hstep] at hs2
        refine ih s1 (step_consistent e s0 s1 c h0 ?_ hstep) hs2 hr
        intro data dataFlags hc
        subst hc
        exact hs.1
  have hinv := main calls (State.fresh isSrgb) (by simp [State.fresh]) hsafe hrun
  exact ⟨hinv, doIsOpened_of_consistent st hinv⟩

/-- C9. For every importer state (an `Opened` one in particular), image index
and level: if the configured "format" string is non-empty and `fromString` maps
it to the invalid sentinel, `doImage2D` returns no image, prints the
"invalid transcoding target format" error, and leaves the state (session,
bytes, file info, sRGB flag, warning flag) exactly as it was; the outcome is
the same for every engine, so no engine call contributes to it, and any later
call behaves as on the untouched importer. -/
theorem doImage2D_invalid_format {σ : Type} (e : Engine σ) (format : String) (st : State σ)
    (id level : Nat) (hne : format ≠ "")
    (hinv : fromString format = some TargetFormat.invalid) :
    ∃ r, doImage2D e format st id level = some r ∧
      r.image = none ∧
      r.log = [Diagnostic.error (invalidFormatError format)] ∧
      r.state = st ∧
      (∀ e' : Engine σ, doImage2D e' format st id level = some r) ∧
      (∀ format' id' level',
        doImage2D e format' r.state id' level' = doImage2D e format' st id' level') := by
  have h : ∀ e' : Engine σ, doImage2D e' format st id level =
      some { image := none, state := st,
             log := [Diagnostic.error (invalidFormatError format)] } := by
    intro e'
    unfold doImage2D
    rw [if_neg hne, hinv]
    simp [TargetFormat.invalid]
  exact ⟨_, h e, rfl, rfl, rfl, h, fun _ _ _ => rfl⟩

/-- Witness of C9: the opened sample importer with the format "Pvrtc1RGB4bpp",
a name the error message lists but the table does not hold. -/
theorem doImage2D_invalid_format_witness :
    ∃ r, doImage2D sampleEngine "Pvrtc1RGB4bpp" sampleOpened 0 0 = some r ∧
      r.image = none ∧
      r.log = [Diagnostic.error (invalidFormatError "Pvrtc1RGB4bpp")] ∧
      r.state = sampleOpened ∧
      (∀ e' : Engine Bool, doImage2D e' "Pvrtc1RGB4bpp" sampleOpened 0 0 = some r) ∧
      (∀ format' id' level',
        doImage2D sampleEngine format' r.state id' level'
          = doImage2D sampleEngine format' sampleOpened id' level') :=
  doImage2D_invalid_format sampleEngine "Pvrtc1RGB4bpp" sampleOpened 0 0 (by decide) (by decide)

/-- C10. Transcode failures are call-scoped: on an `Opened` importer whose
target format resolves (unset, or a name `fromString` accepts), whose queries
for the image and the level succeed and whose buffer geometry is defined, when
the engine's `transcode_image_level` reports failure `doImage2D` returns no
image, prints "transcoding failed", and the importer is still `Opened` with
its session, stored bytes, cached file info and sRGB flag unchanged. -/
theorem doImage2D_transcode_failure {σ : Type} (e : Engine σ) (format : String) (st : State σ)
    (id level : Nat) (session : σ) (targetFormat : TargetFormat)
    (origWidth origHeight totalBlocks : Nat) (layout : LevelLayout)
    (hsession : st.transcoder = some session) (hdata : st.in_ ≠ [])
    (hformat : (format = "" ∧ targetFormat = TargetFormat.RGBA8) ∨
      (format ≠ "" ∧ fromString format = some targetFormat ∧
        targetFormat ≠ TargetFormat.invalid))
    (hinfo : e.get_image_info session st.in_ id = true)
    (hdesc : e.get_image_level_desc session st.in_ id level
      = some (origWidth, origHeight, totalBlocks))
    (hlayout : levelLayout (e.basis_transcoder_format_is_uncompressed (toInt targetFormat))
      (e.basis_get_bytes_per_block_or_pixel (toInt targetFormat))
      origWidth origHeight totalBlocks = some layout)
    (hfail : e.transcode_image_level session st.in_ id level
      layout.outputSizeInBlocksOrPixels (toInt targetFormat) 0 layout.rowStride
      layout.outputRowsInPixels = none) :
    ∃ r, doImage2D e format st id level = some r ∧
      r.image = none ∧
      Diagnostic.error "Trade::BasisImporter::image2D(): transcoding failed" ∈ r.log ∧
      r.state.transcoder = st.transcoder ∧
      r.state.in_ = st.in_ ∧
      r.state.fileInfo = st.fileInfo ∧
      r.state.isSrgb = st.isSrgb ∧
      doIsOpened r.state = some true := by
  have hopen : ∀ flag : Bool,
      doIsOpened { st with noTranscodeFormatWarningPrinted := flag } = some true := by
    intro flag
    unfold doIsOpened
    cases hi : st.in_ with
    | nil => exact absurd hi hdata
    | cons _ _ => simp [hsession, hi]
  have key : ∀ (st0 : State σ) (log : List Diagnostic),
      st0.transcoder = st.transcoder → st0.in_ = st.in_ →
      ∃ log', transcodeLevel e targetFormat st0 log id level =
        some { image := none, state := st0,
               log := log' ++
                 [Diagnostic.error "Trade::BasisImporter::image2D(): transcoding failed"] } := by
    intro st0 log h1 h2
    unfold transcodeLevel
    simp only [h1, h2, hsession, hinfo, hdesc, hlayout, hfail, Bool.not_true,
      Bool.false_eq_true, if_false]
    exact ⟨_, rfl⟩
  rcases hformat with ⟨hempty, htarget⟩ | ⟨hne, hfrom, hvalid⟩
  · subst htarget
    obtain ⟨log', hlog⟩ := key { st with noTranscodeFormatWarningPrinted := true }
      (if (!st.noTranscodeFormatWarningPrinted) = true
        then [Diagnostic.warning noFormatWarning] else []) rfl rfl
    refine ⟨{ image := none, state := { st with noTranscodeFormatWarningPrinted := true },
              log := log' ++
                [Diagnostic.error "Trade::BasisImporter::image2D(): transcoding failed"] },
      ?_, rfl, ?_, rfl, rfl, rfl, rfl, hopen true⟩
    · unfold doImage2D
      rw [if_pos hempty]
      exact hlog
    · simp
  · obtain ⟨log', hlog⟩ := key st [] rfl rfl
    have hmod := enumerators_ne_sentinel targetFormat
      (fromString_mem_enumerators format targetFormat hfrom hvalid)
    refine ⟨{ image := none, state := st,
              log := log' ++
                [Diagnostic.error "Trade::BasisImporter::image2D(): transcoding failed"] },
      ?_, rfl, ?_, rfl, rfl, rfl, rfl, hopen st.noTranscodeFormatWarningPrinted⟩
    · unfold doImage2D
      rw [if_neg hne, hfrom]
      simp only [hmod, if_false]
      exact hlog
    · simp

/-- Witness of C10: the sample engine fails to transcode to PVRTC. -/
theorem doImage2D_transcode_failure_witness :
    ∃ r, doImage2D sampleEngine "PvrtcRGB4bpp" sampleOpened 0 0 = some r ∧
      r.image = none ∧
      Diagnostic.error "Trade::BasisImporter::image2D(): transcoding failed" ∈ r.log ∧
      r.state.transcoder = sampleOpened.transcoder ∧
      r.state.in_ = sampleOpened.in_ ∧
      r.state.fileInfo = sampleOpened.fileInfo ∧
      r.state.isSrgb = sampleOpened.isSrgb ∧
      doIsOpened r.state = some true :=
  doImage2D_transcode_failure sampleEngine "PvrtcRGB4bpp" sampleOpened 0 0 true
    TargetFormat.PvrtcRGB4bpp 2 2 1
    { size := (2, 2), rowStride := 0, outputRowsInPixels := 0, outputSizeInBlocksOrPixels := 1,
      dataSize := 8 }
    (by decide) (by decide)
    (Or.inr ⟨by decide, by decide, by decide⟩) (by decide) (by decide) (by decide) (by decide)

/-- `UnsignedInt(Int(u))` is `u` reduced modulo `2 ^ 32`. -/
theorem toUnsignedInt_toInt (u : Nat) : toUnsignedInt (toInt u) = u % 4294967296 := by
  unfold toUnsignedInt toInt
  split <;> omega

/-- `toUnsignedInt` is below `2 ^ 32`. -/
theorem toUnsignedInt_lt (i : Int) : toUnsignedInt i < 4294967296 := by
  unfold toUnsignedInt
  omega

/-- The destination buffer has the allocated length when the engine stays
inside it. -/
theorem filledBuffer_length (size : Nat) (written : Bytes) (dest : Buffer)
    (h : filledBuffer size written = some dest) : dest.length = size := by
  unfold filledBuffer at h
  split at h
  · cases h
    simp only [List.length_append, List.length_map, List.length_replicate]
    omega
  · cases h

/-- A `transcodeLevel` whose queries succeed, whose geometry is defined, whose
engine call succeeds inside the buffer and whose format resolves returns an
image of the reported size with data of the length `dataSize`. -/
theorem transcodeLevel_success {σ : Type} (e : Engine σ) (targetFormat : TargetFormat)
    (st : State σ) (log : List Diagnostic) (id level : Nat) (session : σ)
    (origWidth origHeight totalBlocks : Nat) (layout : LevelLayout) (written : Bytes)
    (hsession : st.transcoder = some session)
    (hinfo : e.get_image_info session st.in_ id = true)
    (hdesc : e.get_image_level_desc session st.in_ id level
      = some (origWidth, origHeight, totalBlocks))
    (hlayout : levelLayout (e.basis_transcoder_format_is_uncompressed (toInt targetFormat))
      (e.basis_get_bytes_per_block_or_pixel (toInt targetFormat))
      origWidth origHeight totalBlocks = some layout)
    (hwritten : e.transcode_image_level session st.in_ id level
      layout.outputSizeInBlocksOrPixels (toInt targetFormat) 0 layout.rowStride
      layout.outputRowsInPixels = some written)
    (hfit : written.length ≤ layout.dataSize)
    (hresolved : (resolvePixelFormat
      (e.basis_transcoder_format_is_uncompressed (toInt targetFormat)) targetFormat
      st.isSrgb).isSome = true) :
    ∃ r image, transcodeLevel e targetFormat st log id level = some r ∧
      r.image = some image ∧ r.state = st ∧
      image.size = layout.size ∧ image.data.length = layout.dataSize ∧
      some image.format = resolvePixelFormat
        (e.basis_transcoder_format_is_uncompressed (toInt targetFormat)) targetFormat
        st.isSrgb := by
  obtain ⟨f, hf⟩ := Option.isSome_iff_exists.1 hresolved
  have hdest : filledBuffer layout.dataSize written =
      some (written.map some ++ List.replicate (layout.dataSize - written.length) none) := by
    unfold filledBuffer
    rw [if_pos hfit]
  unfold transcodeLevel
  simp only [hsession, hinfo, hdesc, hlayout, hwritten, hdest, hf, Bool.not_true,
    Bool.false_eq_true, if_false, Option.map_some']
  exact ⟨_, _, rfl, rfl, rfl, rfl, filledBuffer_length _ _ _ hdest, rfl⟩

/-- C12. `doClose` is total and idempotent: from every state it ends with the
session absent and the byte buffer empty, so `isOpened()` is `false`; applied
twice it gives the same state as applied once, and it leaves an already
`Closed` importer unchanged. -/
theorem doClose_idempotent {σ : Type} (st : State σ) :
    (doClose st).transcoder = none ∧
    (doClose st).in_ = [] ∧
    doIsOpened (doClose st) = some false ∧
    doClose (doClose st) = doClose st ∧
    (st.isClosed = true → doClose st = st) := by
  refine ⟨rfl, rfl, rfl, rfl, fun hc => ?_⟩
  obtain ⟨hT, hI⟩ := (State.isClosed_iff st).1 hc
  cases st
  simp only at hT hI
  subst hT
  subst hI
  rfl

/-- Witness of C12: closing a fresh importer. -/
theorem doClose_idempotent_witness :
    doClose (State.fresh false : State Bool) = State.fresh false :=
  (doClose_idempotent (State.fresh false : State Bool)).2.2.2.2 (by decide)

/-- On an accepted non-empty input `doOpenData` assigns to `_state->in` the
array `commitInput` builds, and the state holds its bytes. -/
theorem doOpenDataCommitted_of_accept {σ : Type} (e : Engine σ) (data : Bytes)
    (dataFlags : DataFlags) (st : State σ)
    (hne : data ≠ []) (hacc : engineAccepts e data = true) :
    (doOpenDataCommitted e data dataFlags st).committed = some (commitInput data dataFlags) ∧
    (doOpenDataCommitted e data dataFlags st).state.in_ = (commitInput data dataFlags).bytes := by
  have hemp : data.isEmpty = false := by
    cases data with
    | nil => exact absurd rfl hne
    | cons _ _ => rfl
  unfold engineAccepts at hacc
  unfold doOpenDataCommitted
  cases hv : e.validate_header e.create data with
  | false => simp [hv] at hacc
  | true =>
    cases hf : e.get_file_info e.create data with
    | failed leftover => simp [hv, hf] at hacc
    | filled info =>
      rcases hs : e.start_transcoding e.create data with ⟨_ | _, session'⟩
      · simp [hv, hf, hs] at hacc
      · simp [hemp, hv, hf, hs]

/-- C13. Successful open commits the input: for every state, every non-empty
input the engine accepts (header validation, file info extraction and start of
transcoding succeed) and every set of ownership flags, `doOpenData` prints
nothing and leaves the importer `Opened`, the session present and the stored
bytes equal to the input in content and length. The array it stores is the
caller's own array (adopted) when `Owned` or `ExternallyOwned` is set, and
otherwise an array the importer allocated, of the same size, into which the
input was copied. -/
theorem doOpenData_commits_input {σ : Type} (e : Engine σ) (data : Bytes)
    (dataFlags : DataFlags) (st : State σ)
    (hne : data ≠ []) (hacc : engineAccepts e data = true) :
    (doOpenData e data dataFlags st).1.transcoder.isSome = true ∧
    (doOpenData e data dataFlags st).1.in_ = data ∧
    (doOpenData e data dataFlags st).1.in_.length = data.length ∧
    doIsOpened (doOpenData e data dataFlags st).1 = some true ∧
    (doOpenData e data dataFlags st).2 = [] ∧
    ((dataFlags.contains DataFlag.Owned || dataFlags.contains DataFlag.ExternallyOwned) = false →
      (doOpenData e data dataFlags st).1.in_ = copyBytes data (noInitArray data.length)) ∧
    (∃ array, (doOpenDataCommitted e data dataFlags st).committed = some array ∧
      (doOpenData e data dataFlags st).1.in_ = array.bytes ∧
      array.bytes = data ∧
      ((dataFlags.contains DataFlag.Owned || dataFlags.contains DataFlag.ExternallyOwned)
          = true →
        array = { storage := Storage.input, bytes := data }) ∧
      ((dataFlags.contains DataFlag.Owned || dataFlags.contains DataFlag.ExternallyOwned)
          = false →
        array = { storage := Storage.allocated,
                  bytes := copyBytes data (noInitArray data.length) })) := by
  obtain ⟨info, session, _, _, h⟩ := doOpenData_of_accept e data dataFlags st hne hacc
  obtain ⟨hc, _⟩ := doOpenDataCommitted_of_accept e data dataFlags st hne hacc
  have hemp : data.isEmpty = false := by
    cases data with
    | nil => exact absurd rfl hne
    | cons _ _ => rfl
  rw [h]
  refine ⟨rfl, rfl, rfl, ?_, rfl, fun _ => (copyBytes_noInitArray data).symm,
    commitInput data dataFlags, hc, (commitInput_bytes data dataFlags).symm,
    commitInput_bytes data dataFlags, ?_, ?_⟩
  · simp [doIsOpened, hemp]
  · intro hflag
    unfold commitInput
    rw [if_pos hflag]
  · intro hflag
    unfold commitInput
    rw [if_neg (by rw [hflag]; decide)]

/-- Witness of C13: the sample file, once not owned (copied into an allocated
array) and once owned (adopted). -/
theorem doOpenData_commits_input_witness :
    ((doOpenData sampleEngine sampleFile [] (State.fresh false)).1.in_ = sampleFile ∧
      (doOpenDataCommitted sampleEngine sampleFile [] (State.fresh false)).committed
        = some { storage := Storage.allocated, bytes := sampleFile }) ∧
    ((doOpenData sampleEngine sampleFile [DataFlag.Owned] (State.fresh false)).1.in_
        = sampleFile ∧
      (doOpenDataCommitted sampleEngine sampleFile [DataFlag.Owned]
          (State.fresh false)).committed
        = some { storage := Storage.input, bytes := sampleFile }) :=
  have h1 := doOpenData_commits_input sampleEngine sampleFile [] (State.fresh false)
    (by decide) (by decide)
  have h2 := doOpenData_commits_input sampleEngine sampleFile [DataFlag.Owned]
    (State.fresh false) (by decide) (by decide)
  ⟨⟨h1.2.1, by decide⟩, ⟨h2.2.1, by decide⟩⟩

/-- Counterexample to C14 as stated: on a fresh importer of the sample engine a
file on which transcoding does not start leaves the cached file info rewritten
(one image instead of none); on the opened sample importer a file with a bad
header leaves the session released while the old bytes stay. -/
theorem failed_open_changes_state :
    engineAccepts sampleEngine sampleTruncated = false ∧
    (State.fresh false : State Bool).fileInfo.m_total_images = 0 ∧
    (doOpenData sampleEngine sampleTruncated [] (State.fresh false)).1.fileInfo.m_total_images
      = 1 ∧
    engineAccepts sampleEngine sampleGarbage = false ∧
    sampleOpened.transcoder = some true ∧
    (doOpenData sampleEngine sampleGarbage [] sampleOpened).1.transcoder = none ∧
    (doOpenData sampleEngine sampleGarbage [] sampleOpened).1.in_ = sampleFile := by
  decide

/-- C14, amended. A failed `doOpenData` prints one error. With an empty buffer
the whole state equals the state before the call. On a `Closed` importer, with
a non-empty input the engine rejects, the session, the stored bytes, the sRGB
flag and the warning flag equal those before the call, and when it is header
validation that fails the whole state does. -/
theorem failed_open_keeps_state {σ : Type} (e : Engine σ) (data : Bytes)
    (dataFlags : DataFlags) (st : State σ) :
    (data = [] →
      (doOpenData e data dataFlags st).1 = st ∧
      ∃ message, (doOpenData e data dataFlags st).2 = [Diagnostic.error message]) ∧
    (st.isClosed = true → data ≠ [] → engineAccepts e data = false →
      (doOpenData e data dataFlags st).1.transcoder = st.transcoder ∧
      (doOpenData e data dataFlags st).1.in_ = st.in_ ∧
      (doOpenData e data dataFlags st).1.isSrgb = st.isSrgb ∧
      (doOpenData e data dataFlags st).1.noTranscodeFormatWarningPrinted
        = st.noTranscodeFormatWarningPrinted ∧
      ∃ message, (doOpenData e data dataFlags st).2 = [Diagnostic.error message]) ∧
    (st.isClosed = true → data ≠ [] → e.validate_header e.create data = false →
      (doOpenData e data dataFlags st).1 = st) := by
  refine ⟨?_, ?_, ?_⟩
  · intro hd
    subst hd
    rw [doOpenData_nil]
    exact ⟨rfl, _, rfl⟩
  · intro hc hne hrej
    obtain ⟨hT, _⟩ := (State.isClosed_iff st).1 hc
    obtain ⟨info, message, h⟩ := doOpenData_of_reject e data dataFlags st hne hrej
    rw [h]
    exact ⟨hT.symm, rfl, rfl, rfl, message, rfl⟩
  · intro hc hne hv
    obtain ⟨hT, _⟩ := (State.isClosed_iff st).1 hc
    have hemp : data.isEmpty = false := by
      cases data with
      | nil => exact absurd rfl hne
      | cons _ _ => rfl
    rw [doOpenData_eq]
    simp only [hemp, Bool.false_eq_true, if_false, hv, Bool.not_false, if_true, transcoderGuard]
    cases st
    simp only at hT
    subst hT
    rfl

/-- Witness of C14, amended: a fresh importer and a file with a bad header. -/
theorem failed_open_keeps_state_witness :
    (doOpenData sampleEngine sampleGarbage [] (State.fresh false)).1 = State.fresh false :=
  (failed_open_keeps_state sampleEngine sampleGarbage [] (State.fresh false)).2.2
    (by decide) (by decide) (by decide)

/-! ## Unset format: theorems -/

/-- The two warnings of `doImage2D` have different texts. -/
theorem noFormatWarning_ne_notYFlippedWarning : noFormatWarning ≠ notYFlippedWarning := by
  decide

/-- A `transcodeLevel` whose queries succeed and whose geometry is defined, on
an engine call that fails: no image, the state as given, the error appended. -/
theorem transcodeLevel_failure {σ : Type} (e : Engine σ) (targetFormat : TargetFormat)
    (st : State σ) (log : List Diagnostic) (id level : Nat) (session : σ)
    (origWidth origHeight totalBlocks : Nat) (layout : LevelLayout)
    (hsession : st.transcoder = some session)
    (hinfo : e.get_image_info session st.in_ id = true)
    (hdesc : e.get_image_level_desc session st.in_ id level
      = some (origWidth, origHeight, totalBlocks))
    (hlayout : levelLayout (e.basis_transcoder_format_is_uncompressed (toInt targetFormat))
      (e.basis_get_bytes_per_block_or_pixel (toInt targetFormat))
      origWidth origHeight totalBlocks = some layout)
    (hfail : e.transcode_image_level session st.in_ id level
      layout.outputSizeInBlocksOrPixels (toInt targetFormat) 0 layout.rowStride
      layout.outputRowsInPixels = none) :
    transcodeLevel e targetFormat st log id level =
      some { image := none, state := st,
             log := (if (!st.fileInfo.m_y_flipped) = true
                      then log ++ [Diagnostic.warning notYFlippedWarning] else log) ++
               [Diagnostic.error "Trade::BasisImporter::image2D(): transcoding failed"] } := by
  unfold transcodeLevel
  simp only [hsession, hinfo, hdesc, hlayout, hfail, Bool.not_true, Bool.false_eq_true,
    if_false]

/-- What a successful `transcodeLevel` prints: the output so far, and the
orientation warning when the file is not Y-flipped. -/
theorem transcodeLevel_success_log {σ : Type} (e : Engine σ) (targetFormat : TargetFormat)
    (st : State σ) (log : List Diagnostic) (id level : Nat) (r : Image2DResult σ)
    (image : ImageData2D)
    (h : transcodeLevel e targetFormat st log id level = some r)
    (hi : r.image = some image) :
    r.log = if (!st.fileInfo.m_y_flipped) = true
      then log ++ [Diagnostic.warning notYFlippedWarning] else log := by
  unfold transcodeLevel at h
  simp only at h
  split at h
  · cases h
  · split at h
    · cases h
    · split at h
      · cases h
      · split at h
        · cases h
        · split at h
          · cases h
            cases hi
          · split at h
            · cases h
            · rw [Option.map_eq_some'] at h
              obtain ⟨f, _, hf⟩ := h
              rw [← hf]

/-- One `doImage2D` call with the format unset, on a state with a session, for
an image and level on which the call is defined, with an engine for which
`RGBA8` is uncompressed: the call returns, sets the warning flag and changes
nothing else, prints the advisory exactly when the flag was clear, and hands
out an uncompressed `RGBA8` image when the engine transcodes. -/
theorem doImage2D_unset_format {σ : Type} (e : Engine σ) (st : State σ) (session : σ)
    (id level : Nat) (hsession : st.transcoder = some session)
    (hU : e.basis_transcoder_format_is_uncompressed (toInt TargetFormat.RGBA8) = true)
    (hdesc : levelDescribed e session st.in_ TargetFormat.RGBA8 id level = true) :
    ∃ r, doImage2D e "" st id level = some r ∧
      r.state = { st with noTranscodeFormatWarningPrinted := true } ∧
      (Diagnostic.warning noFormatWarning ∈ r.log ↔
        st.noTranscodeFormatWarningPrinted = false) ∧
      (levelTranscodes e session st.in_ TargetFormat.RGBA8 id level = true →
        ∃ image, r.image = some image ∧
          image.format = ImageFormat.uncompressed
            (if st.isSrgb then PixelFormat.RGBA8Srgb else PixelFormat.RGBA8Unorm)) := by
  have hne := noFormatWarning_ne_notYFlippedWarning
  have hcall : doImage2D e "" st id level =
      transcodeLevel e TargetFormat.RGBA8 { st with noTranscodeFormatWarningPrinted := true }
        (if (!st.noTranscodeFormatWarningPrinted) = true
          then [Diagnostic.warning noFormatWarning] else []) id level := by
    unfold doImage2D
    rw [if_pos rfl]
  unfold levelDescribed at hdesc
  rw [Bool.and_eq_true] at hdesc
  obtain ⟨hinfo, hrest⟩ := hdesc
  cases hd : e.get_image_level_desc session st.in_ id level with
  | none =>
    rw [hd] at hrest
    exact Bool.noConfusion hrest
  | some geometry =>
    obtain ⟨w, h, b⟩ := geometry
    rw [hd] at hrest
    simp only at hrest
    cases hl : levelLayout (e.basis_transcoder_format_is_uncompressed (toInt TargetFormat.RGBA8))
        (e.basis_get_bytes_per_block_or_pixel (toInt TargetFormat.RGBA8)) w h b with
    | none =>
      rw [hl] at hrest
      exact Bool.noConfusion hrest
    | some layout =>
      rw [hl] at hrest
      simp only at hrest
      cases ht : e.transcode_image_level session st.in_ id level
          layout.outputSizeInBlocksOrPixels (toInt TargetFormat.RGBA8) 0 layout.rowStride
          layout.outputRowsInPixels with
      | none =>
        have hr := transcodeLevel_failure e TargetFormat.RGBA8
          { st with noTranscodeFormatWarningPrinted := true }
          (if (!st.noTranscodeFormatWarningPrinted) = true
            then [Diagnostic.warning noFormatWarning] else []) id level session w h b layout
          hsession hinfo hd hl ht
        refine ⟨_, hcall.trans hr, rfl, ?_, ?_⟩
        · cases st.noTranscodeFormatWarningPrinted <;> cases st.fileInfo.m_y_flipped <;>
            simp [hne]
        · intro hc
          unfold levelTranscodes at hc
          rw [hd] at hc
          simp only at hc
          rw [hl] at hc
          simp only at hc
          rw [ht] at hc
          exact Bool.noConfusion hc
      | some written =>
        rw [ht] at hrest
        have hfit : written.length ≤ layout.dataSize := of_decide_eq_true hrest
        have hres : (resolvePixelFormat
            (e.basis_transcoder_format_is_uncompressed (toInt TargetFormat.RGBA8))
            TargetFormat.RGBA8 st.isSrgb).isSome = true := by
          rw [hU]
          cases st.isSrgb <;> rfl
        obtain ⟨r, image, hr, hi, hstate, _, _, hfmt⟩ := transcodeLevel_success e
          TargetFormat.RGBA8 { st with noTranscodeFormatWarningPrinted := true }
          (if (!st.noTranscodeFormatWarningPrinted) = true
            then [Diagnostic.warning noFormatWarning] else []) id level session w h b layout
          written hsession hinfo hd hl ht hfit hres
        have hlog := transcodeLevel_success_log e TargetFormat.RGBA8 _ _ id level r image hr hi
        refine ⟨r, hcall.trans hr, hstate, ?_, ?_⟩
        · rw [hlog]
          cases st.noTranscodeFormatWarningPrinted <;> cases st.fileInfo.m_y_flipped <;>
            simp [hne]
        · intro _
          refine ⟨image, hi, ?_⟩
          rw [hU] at hfmt
          have : some image.format = some (ImageFormat.uncompressed
              (if st.isSrgb then PixelFormat.RGBA8Srgb else PixelFormat.RGBA8Unorm)) := by
            rw [hfmt]
            cases st.isSrgb <;> rfl
          exact Option.some.inj this

/-- `doOpenData` leaves the warning flag as it is. -/
theorem doOpenData_warning_flag {σ : Type} (e : Engine σ) (data : Bytes)
    (dataFlags : DataFlags) (st : State σ) :
    (doOpenData e data dataFlags st).1.noTranscodeFormatWarningPrinted
      = st.noTranscodeFormatWarningPrinted := by
  by_cases hemp : data = []
  · subst hemp
    rw [doOpenData_nil]
  · by_cases hacc : engineAccepts e data = true
    · obtain ⟨_, _, _, _, h⟩ := doOpenData_of_accept e data dataFlags st hemp hacc
      rw [h]
    · have hrej : engineAccepts e data = false := by simpa using hacc
      obtain ⟨_, _, h⟩ := doOpenData_of_reject e data dataFlags st hemp hrej
      rw [h]

/-- A returning `doImage2D` sets the warning flag when the format is unset and
leaves it as it is otherwise. -/
theorem doImage2D_warning_flag {σ : Type} (e : Engine σ) (format : String) (st : State σ)
    (id level : Nat) (r : Image2DResult σ) (h : doImage2D e format st id level = some r) :
    r.state.noTranscodeFormatWarningPrinted
      = (st.noTranscodeFormatWarningPrinted || decide (format = "")) := by
  unfold doImage2D at h
  split at h
  · rename_i hf
    rw [transcodeLevel_state e _ _ _ id level r h]
    simp [hf]
  · rename_i hf
    split at h
    · cases h
    · split at h
      · cases h
        simp [hf]
      · rw [transcodeLevel_state e _ _ _ id level r h]
        simp [hf]

/-- Along any returning sequence of calls the warning flag is set exactly when
it was set before or one of the calls was a `doImage2D` with the format unset:
`doClose` and `doOpenData` never clear it. -/
theorem run_warning_flag {σ : Type} (e : Engine σ) (history : List Call) (st0 st : State σ)
    (hrun : run e st0 history = some st) :
    st.noTranscodeFormatWarningPrinted
      = (st0.noTranscodeFormatWarningPrinted || hadUnsetFormatCall history) := by
  induction history generalizing st0 with
  | nil =>
    cases hrun
    simp [hadUnsetFormatCall]
  | cons c rest ih =>
    simp only [run] at hrun
    cases hstep : step e st0 c with
    | none => simp [hstep] at hrun
    | some st1 =>
      rw [hstep] at hrun
      rw [ih st1 hrun]
      cases c with
      | close =>
        cases hstep
        simp [hadUnsetFormatCall, doClose]
      | openData data dataFlags =>
        simp only [step, Option.some.injEq] at hstep
        subst hstep
        rw [doOpenData_warning_flag]
        simp [hadUnsetFormatCall]
      | image2D format id level =>
        simp only [step, Option.map_eq_some'] at hstep
        obtain ⟨r, hr, rfl⟩ := hstep
        rw [doImage2D_warning_flag e format st0 id level r hr]
        simp [hadUnsetFormatCall, Bool.or_assoc]

/-- The unset-format calls of one stretch: all return, the first prints the
advisory exactly when the flag was clear, no later one prints it, and each one
the engine transcodes returns an uncompressed `RGBA8` image. -/
theorem image2DSequence_unset_format {σ : Type} (e : Engine σ) (st : State σ) (session : σ)
    (calls : List (Nat × Nat)) (hsession : st.transcoder = some session)
    (hU : e.basis_transcoder_format_is_uncompressed (toInt TargetFormat.RGBA8) = true)
    (hdesc : ∀ c ∈ calls, levelDescribed e session st.in_ TargetFormat.RGBA8 c.1 c.2 = true) :
    ∃ results, image2DSequence e "" st calls = some results ∧
      results.length = calls.length ∧
      (∀ r, results.head? = some r →
        (Diagnostic.warning noFormatWarning ∈ r.log ↔
          st.noTranscodeFormatWarningPrinted = false)) ∧
      (∀ r ∈ results.tail, Diagnostic.warning noFormatWarning ∉ r.log) ∧
      (∀ p ∈ calls.zip results,
        levelTranscodes e session st.in_ TargetFormat.RGBA8 p.1.1 p.1.2 = true →
        ∃ image, p.2.image = some image ∧
          image.format = ImageFormat.uncompressed
            (if st.isSrgb then PixelFormat.RGBA8Srgb else PixelFormat.RGBA8Unorm)) := by
  induction calls generalizing st with
  | nil =>
    refine ⟨[], rfl, rfl, ?_, ?_, ?_⟩
    · intro r hr
      simp at hr
    · intro r hr
      simp at hr
    · intro p hp
      simp at hp
  | cons c rest ih =>
    obtain ⟨id, level⟩ := c
    obtain ⟨r, hr, hstate, hwarn, himage⟩ := doImage2D_unset_format e st session id level
      hsession hU (hdesc (id, level) (List.mem_cons_self _ _))
    have hsession' : r.state.transcoder = some session := by rw [hstate]; exact hsession
    have hin : r.state.in_ = st.in_ := by rw [hstate]
    have hsrgb : r.state.isSrgb = st.isSrgb := by rw [hstate]
    have hflag : r.state.noTranscodeFormatWarningPrinted = true := by rw [hstate]
    obtain ⟨rs, hrs, hlen, hhead, htail, hzip⟩ := ih r.state hsession'
      (fun c hc => by rw [hin]; exact hdesc c (List.mem_cons_of_mem _ hc))
    have hnone : ∀ r' ∈ rs, Diagnostic.warning noFormatWarning ∉ r'.log := by
      intro r' hr'
      cases rs with
      | nil => simp at hr'
      | cons r0 rs0 =>
        rcases List.mem_cons.1 hr' with h0 | h0
        · subst h0
          intro hmem
          have := (hhead r' rfl).1 hmem
          rw [hflag] at this
          exact Bool.noConfusion this
        · exact htail r' h0
    refine ⟨r :: rs, ?_, by simp [hlen], ?_, ?_, ?_⟩
    · simp only [image2DSequence, hr, hrs, Option.map_some']
    · intro r' hr'
      simp only [List.head?_cons, Option.some.injEq] at hr'
      subst hr'
      exact hwarn
    · intro r' hr'
      exact hnone r' hr'
    · intro p hp
      simp only [List.zip_cons_cons, List.mem_cons] at hp
      rcases hp with hp | hp
      · subst hp
        exact himage
      · have := hzip p hp
        rw [hin, hsrgb] at this
        exact this

/-- Counterexample to C11 as stated: on the sample importer, after a first
opened session in which one unset-format call was made, a second opened session
(close, open again) prints the advisory in none of its calls, the first one
included. -/
theorem advisory_not_repeated_after_reopen :
    (run sampleEngine (State.fresh false)
        [Call.openData sampleFile [], Call.image2D "" 0 0, Call.close,
         Call.openData sampleFile []]).bind
      (fun st => (image2DSequence sampleEngine "" st [(0, 0), (0, 0)]).map
        fun rs => (doIsOpened st, rs.map fun r => r.log))
    = some (some true, [[], []]) := by
  decide

/-- C11, amended. On an importer reached from construction by any returning
sequence of `doClose`, `doOpenData` and `doImage2D` calls and holding a session,
with the "format" option unset, for images and levels on which the call is
defined and an engine for which `RGBA8` is uncompressed: the warning flag is
set exactly when an unset-format `doImage2D` call was made on this importer
before (`doClose` and `doOpenData` leave it as it is); every call of a sequence
of `doImage2D` calls returns; the advisory is printed by the first call exactly
when no unset-format call was made on this importer before, and by no later
call; every call on which the engine transcodes returns an uncompressed `RGBA8`
image. -/
theorem unset_format_advisory_once {σ : Type} (e : Engine σ) (isSrgb : Bool)
    (history : List Call) (st : State σ) (session : σ) (calls : List (Nat × Nat))
    (hrun : run e (State.fresh isSrgb) history = some st)
    (hsession : st.transcoder = some session)
    (hU : e.basis_transcoder_format_is_uncompressed (toInt TargetFormat.RGBA8) = true)
    (hdesc : ∀ c ∈ calls, levelDescribed e session st.in_ TargetFormat.RGBA8 c.1 c.2 = true) :
    st.noTranscodeFormatWarningPrinted = hadUnsetFormatCall history ∧
    (doClose st).noTranscodeFormatWarningPrinted = st.noTranscodeFormatWarningPrinted ∧
    (∀ data dataFlags, (doOpenData e data dataFlags st).1.noTranscodeFormatWarningPrinted
      = st.noTranscodeFormatWarningPrinted) ∧
    ∃ results, image2DSequence e "" st calls = some results ∧
      results.length = calls.length ∧
      (∀ r, results.head? = some r →
        (Diagnostic.warning noFormatWarning ∈ r.log ↔ hadUnsetFormatCall history = false)) ∧
      (∀ r ∈ results.tail, Diagnostic.warning noFormatWarning ∉ r.log) ∧
      (∀ p ∈ calls.zip results,
        levelTranscodes e session st.in_ TargetFormat.RGBA8 p.1.1 p.1.2 = true →
        ∃ image, p.2.image = some image ∧
          image.format = ImageFormat.uncompressed
            (if st.isSrgb then PixelFormat.RGBA8Srgb else PixelFormat.RGBA8Unorm)) := by
  have hflag : st.noTranscodeFormatWarningPrinted = hadUnsetFormatCall history := by
    rw [run_warning_flag e history (State.fresh isSrgb) st hrun]
    simp [State.fresh]
  obtain ⟨results, hres, hlen, hhead, htail, hzip⟩ :=
    image2DSequence_unset_format e st session calls hsession hU hdesc
  refine ⟨hflag, rfl, fun data dataFlags => doOpenData_warning_flag e data dataFlags st,
    results, hres, hlen, ?_, htail, hzip⟩
  intro r hr
  rw [← hflag]
  exact hhead r hr

/-- Witness of C11, amended: two calls in the first session of the sample
importer. -/
theorem unset_format_advisory_once_witness :
    ∃ results, image2DSequence sampleEngine "" sampleOpened [(0, 0), (0, 0)] = some results ∧
      results.length = 2 ∧
      (∀ r, results.head? = some r →
        (Diagnostic.warning noFormatWarning ∈ r.log ↔
          hadUnsetFormatCall [Call.openData sampleFile []] = false)) ∧
      (∀ r ∈ results.tail, Diagnostic.warning noFormatWarning ∉ r.log) ∧
      (∀ p ∈ ([(0, 0), (0, 0)] : List (Nat × Nat)).zip results,
        levelTranscodes sampleEngine true sampleOpened.in_ TargetFormat.RGBA8 p.1.1 p.1.2
          = true →
        ∃ image, p.2.image = some image ∧
          image.format = ImageFormat.uncompressed
            (if sampleOpened.isSrgb then PixelFormat.RGBA8Srgb else PixelFormat.RGBA8Unorm)) :=
  (unset_format_advisory_once sampleEngine false [Call.openData sampleFile []] sampleOpened
    true [(0, 0), (0, 0)] (by rfl) (by decide) (by decide) (by decide)).2.2.2

/-! ## Plugin alias and error message: theorems -/

/-- A list begins with each of its own initial segments. -/
theorem beginsWithChars_append (start rest : List Char) :
    beginsWithChars (start ++ rest) start = true := by
  induction start with
  | nil => cases rest <;> rfl
  | cons c cs ih => simpa [beginsWithChars] using ih

/-- A list that begins with `start` is `start` followed by what is left after
dropping as many characters. -/
theorem eq_append_of_beginsWithChars (string start : List Char)
    (h : beginsWithChars string start = true) :
    string = start ++ string.drop start.length := by
  induction start generalizing string with
  | nil => rfl
  | cons p ps ih =>
    cases string with
    | nil => simp [beginsWithChars] at h
    | cons c cs =>
      simp only [beginsWithChars, Bool.and_eq_true, beq_iff_eq] at h
      obtain ⟨hc, hcs⟩ := h
      subst hc
      simp only [List.length_cons, List.drop_succ_cons, List.cons_append, List.cons.injEq,
        true_and]
      exact ih cs hcs

/-- The constructor's value for an identifier made of the prefix and a
non-empty suffix is the suffix. -/
theorem aliasFormat_append (suffix : String) (hne : suffix ≠ "") :
    aliasFormat ("BasisImporter" ++ suffix) = some suffix := by
  have hdata : ("BasisImporter" ++ suffix).data = "BasisImporter".data ++ suffix.data :=
    String.data_append _ _
  have hlen : ("BasisImporter" ++ suffix).length = 13 + suffix.length := by
    rw [String.length_append]
    rfl
  have hpos : 0 < suffix.length := by
    cases hs : suffix.data with
    | nil =>
      exact absurd (String.ext hs) hne
    | cons c cs =>
      show 0 < suffix.data.length
      rw [hs]
      exact Nat.succ_pos _
  unfold aliasFormat beginsWith
  rw [hdata, beginsWithChars_append, if_pos rfl, if_pos (by rw [hlen]; omega)]
  have hdrop : ("BasisImporter".data ++ suffix.data).drop 13 = suffix.data :=
    List.drop_left' (by decide)
  rw [hdrop]

/-- Counterexample to C15 as stated: for the identifier "BasisImporterFoo" the
constructor sets the option to "Foo", which `fromString` maps to the invalid
sentinel. -/
theorem alias_sets_unknown_suffix :
    aliasFormat "BasisImporterFoo" = some "Foo" ∧
    fromString "Foo" = some TargetFormat.invalid := by
  decide

/-- C15, amended. Alias construction: for every plugin identifier the
constructor sets the "format" option exactly when the identifier begins with
"BasisImporter" and is longer than the 13-character prefix; the value it sets
is the remaining suffix, without a validity test, so every non-empty suffix is
set as it is; for a suffix that is a supported format name the value is one
`fromString` does not map to the invalid sentinel. In every other case the
option is not touched. -/
theorem alias_sets_suffix (plugin suffix : String) :
    (aliasFormat plugin ≠ none ↔
      beginsWith plugin "BasisImporter" = true ∧ 13 < plugin.length) ∧
    (∀ value, aliasFormat plugin = some value → plugin = "BasisImporter" ++ value) ∧
    (suffix ≠ "" → aliasFormat ("BasisImporter" ++ suffix) = some suffix) ∧
    (suffix ∈ supportedNames →
      aliasFormat ("BasisImporter" ++ suffix) = some suffix ∧
      fromString suffix ≠ some TargetFormat.invalid) := by
  refine ⟨?_, ?_, aliasFormat_append suffix, ?_⟩
  · unfold aliasFormat
    by_cases hb : beginsWith plugin "BasisImporter" = true
    · by_cases hl : plugin.length > 13
      · simp [hb, hl]
      · simp [hb, hl]
    · simp [hb]
  · intro value hv
    unfold aliasFormat at hv
    by_cases hb : beginsWith plugin "BasisImporter" = true
    · by_cases hl : plugin.length > 13
      · rw [if_pos hb, if_pos hl] at hv
        have hval : value = String.mk (plugin.data.drop 13) := (Option.some.inj hv).symm
        apply String.ext
        rw [String.data_append, hval]
        exact eq_append_of_beginsWithChars plugin.data "BasisImporter".data hb
      · rw [if_pos hb, if_neg hl] at hv
        exact Option.noConfusion hv
    · rw [if_neg hb] at hv
      exact Option.noConfusion hv
  · intro hs
    have hne : suffix ≠ "" := by
      intro h
      subst h
      revert hs
      decide
    refine ⟨aliasFormat_append suffix hne, ?_⟩
    intro hinv
    obtain ⟨t, ht, hlt, _, _⟩ := fromString_of_mem suffix hs
    rw [ht] at hinv
    rw [Option.some.inj hinv] at hlt
    exact absurd hlt (by decide)

/-- Witness of C15, amended: the alias "BasisImporterEtc2RGBA". -/
theorem alias_sets_suffix_witness :
    aliasFormat ("BasisImporter" ++ "Etc2RGBA") = some "Etc2RGBA" ∧
    fromString "Etc2RGBA" ≠ some TargetFormat.invalid :=
  (alias_sets_suffix "BasisImporterEtc2RGBA" "Etc2RGBA").2.2.2 (by decide)

/-- C16, at the failing input. The error of `doImage2D` for an unresolvable
format lists "Pvrtc1RGB4bpp" and "Pvrtc1RGBA4bpp", which `fromString` maps to
the invalid sentinel, and does not list "PvrtcRGB4bpp" and "PvrtcRGBA4bpp",
which `fromString` accepts; the other twelve listed names are the other twelve
accepted names. Configuring the listed "Pvrtc1RGB4bpp" on the opened sample
importer gives this very error. -/
theorem error_message_names_differ_from_table :
    ("Pvrtc1RGB4bpp" ∈ expectedFormatNames ∧
      fromString "Pvrtc1RGB4bpp" = some TargetFormat.invalid) ∧
    ("Pvrtc1RGBA4bpp" ∈ expectedFormatNames ∧
      fromString "Pvrtc1RGBA4bpp" = some TargetFormat.invalid) ∧
    ("PvrtcRGB4bpp" ∉ expectedFormatNames ∧
      fromString "PvrtcRGB4bpp" = some TargetFormat.PvrtcRGB4bpp) ∧
    ("PvrtcRGBA4bpp" ∉ expectedFormatNames ∧
      fromString "PvrtcRGBA4bpp" = some TargetFormat.PvrtcRGBA4bpp) ∧
    expectedFormatNames.filter (fun n => decide (n ∈ supportedNames)) =
      ["EacR", "EacRG", "Etc1RGB", "Etc2RGBA", "Bc1RGB", "Bc3RGBA", "Bc4R", "Bc5RG", "Bc7RGB",
       "Bc7RGBA", "Astc4x4RGBA", "RGBA8"] ∧
    supportedNames.filter (fun n => decide (n ∉ expectedFormatNames)) =
      ["PvrtcRGB4bpp", "PvrtcRGBA4bpp"] ∧
    (doImage2D sampleEngine "Pvrtc1RGB4bpp" sampleOpened 0 0).map (fun r => (r.image, r.log))
      = some (none, [Diagnostic.error (invalidFormatError "Pvrtc1RGB4bpp")]) := by
  refine ⟨by decide, by decide, by decide, by decide, by decide, by decide, ?_⟩
  rfl

end Magnum.Trade
